import Mathlib

/-!
Verification of the `gphotos_meta` metadata-restoration tool
(`src/gphotos_meta/scanner.py`, `metadata.py`, `cli.py`) against its design
specification.  The Python code is shallowly embedded: Python `str` values
become Lean `String` (operated on through their character list `.data`, which
is what Python's index/slice semantics act on), `float` becomes `ℚ` (the
decimal literals of the source and of the JSON inputs are exact rationals),
`pathlib.Path` becomes a (parent directory, file name) record, raising an
exception becomes returning an `Option PyExn` next to the partial state, and
the filesystem / ExifTool process boundary becomes an explicit environment
record of pure functions.
-/

namespace GPhotosMeta

/-! ## Python value model -/

/-- A JSON / Python runtime value as it appears in parsed sidecar JSON and in
the tag dictionaries returned by `exiftool.get_metadata`. -/
inductive JVal where
  | jnull : JVal
  | jbool (b : Bool) : JVal
  | jnum (q : ℚ) : JVal
  | jstr (s : String) : JVal
  deriving DecidableEq, Repr

/-- Python truthiness of a value (`bool(v)`): `None`, `False`, `0` and `""`
are falsy, everything else is truthy. -/
def truthy : JVal → Bool
  | .jnull => false
  | .jbool b => b
  | .jnum q => decide (q ≠ 0)
  | .jstr s => decide (s ≠ "")

/-- Truthiness of an optional value; `dict.get` returns `None` for a missing
key, which is falsy. -/
def truthyOpt : Option JVal → Bool
  | none => false
  | some v => truthy v

/-- Python `a or b`: returns `a` if `a` is truthy, else `b`. -/
def pyOr (a b : Option JVal) : Option JVal :=
  if truthyOpt a then a else b

/-- Python `if v:` applied to an optional value, keeping the value when it is
truthy.  `pyTruthy o = some v` exactly when `o = some v` and `v` is truthy. -/
def pyTruthy (o : Option JVal) : Option JVal :=
  if truthyOpt o then o else none

/-- Rendering of a rational in messages.  The Python source interpolates
`float` values into f-strings; their exact `repr` text is presentation-level
and no claim depends on it, so we render `num/den`. -/
def qRepr (q : ℚ) : String :=
  toString q.num ++ "/" ++ toString q.den

/-- Python `str(v)`.  Exact only for strings (the case exercised by the
source, which applies it to date strings read back from ExifTool); numeric
rendering is approximated by `qRepr`. -/
def pyStr : JVal → String
  | .jstr s => s
  | .jbool true => "True"
  | .jbool false => "False"
  | .jnull => "None"
  | .jnum q => qRepr q

/-- A decimal string accepted by Python `float(...)`: optional sign, digits,
optionally a point and more digits.  (Python also accepts exponents,
`inf`/`nan` and surrounding whitespace; ExifTool GPS tags are plain decimal
numbers, so those forms never occur here.) -/
def pyFloatOfString (s : String) : Option ℚ :=
  let chars := s.data
  let (sign, rest) :=
    match chars with
    | '-' :: r => ((-1 : ℚ), r)
    | '+' :: r => ((1 : ℚ), r)
    | r => ((1 : ℚ), r)
  let intPart := rest.takeWhile Char.isDigit
  let afterInt := rest.drop intPart.length
  let digitsVal (l : List Char) : ℚ :=
    l.foldl (fun acc c => acc * 10 + (c.toNat - '0'.toNat : ℕ)) (0 : ℚ)
  match afterInt with
  | [] =>
    if intPart.isEmpty then none
    else some (sign * digitsVal intPart)
  | '.' :: fracChars =>
    let fracPart := fracChars.takeWhile Char.isDigit
    if fracChars.drop fracPart.length ≠ [] then none
    else if intPart.isEmpty ∧ fracPart.isEmpty then none
    else some (sign * (digitsVal intPart + digitsVal fracPart / (10 : ℚ) ^ fracPart.length))
  | _ => none

/-- Python `float(v)` on the values that can reach it in `verify_metadata`
(`none` models the `TypeError`/`ValueError` that the source catches). -/
def pyFloat : JVal → Option ℚ
  | .jnum q => some q
  | .jbool true => some 1
  | .jbool false => some 0
  | .jstr s => pyFloatOfString s
  | .jnull => none

/-- Python `int(s)` on a string: optional sign followed by decimal digits
(`none` models the `ValueError` that the source catches; Google timestamps
are plain decimal strings). -/
def pyIntOfString (s : String) : Option Int :=
  let chars := s.data
  let (neg, digits) :=
    match chars with
    | '-' :: r => (true, r)
    | '+' :: r => (false, r)
    | r => (false, r)
  if digits.isEmpty ∨ ¬ digits.all Char.isDigit then none
  else
    let n : ℕ := digits.foldl (fun acc c => acc * 10 + (c.toNat - '0'.toNat)) 0
    some (if neg then -(n : Int) else (n : Int))

/-- Every Python object is coercible to a boolean: `bool(v)` is total.  This
predicate exists so the spec's phrase "non-boolean-coercible" can be stated
literally. -/
def boolCoercible (_ : JVal) : Prop := True

/-- Python exceptions that can escape to `main`'s handler in the modelled
commands.  For `AttributeError` we record the missing attribute name. -/
inductive PyExn where
  | attributeError (attr : String) : PyExn
  | keyboardInterrupt : PyExn
  deriving DecidableEq, Repr

/-! ## Paths and filename-level string operations -/

/-- A filesystem path, as used by the scanner: every path it manipulates is
`<containing directory>/<file name>`, and `entry.parent / media_name` keeps
the parent and replaces the name.  The parent directory is opaque. -/
structure FPath where
  parent : String
  name : String
  deriving DecidableEq, Repr

/-- Rendering of a path in user-facing messages (`str(path)`). -/
def pathStr (p : FPath) : String := p.parent ++ "/" ++ p.name

/-- Python string length (`len`), counted in characters. -/
def strLen (s : String) : Nat := s.data.length

/-- Python slice `s[:n]`, counted in characters. -/
def strTake (s : String) (n : Nat) : String := ⟨s.data.take n⟩

/-- ASCII lowercasing of a string (`str.lower` on the filenames handled
here). -/
def lowerStr (s : String) : String := ⟨s.data.map Char.toLower⟩

/-- `re.search(pattern, name, re.IGNORECASE)` for the `$`-anchored literal
suffix patterns of `JSON_PATTERNS`: the name matches iff it ends with the
pattern, case-insensitively. -/
def endsWithCI (name pat : String) : Bool :=
  decide ((lowerStr pat).data <:+ (lowerStr name).data)

/-! ## scanner.py -/

/-- `JSON_PATTERNS` (scanner.py lines 11-16): the regexes
`r"\.supplemental-metadata\.json$"` … are `$`-anchored literal suffixes; we
record the literal each regex matches, in the same order (most specific
first). -/
def JSON_PATTERNS : List String :=
  [".supplemental-metadata.json",
   ".supplemental-metada.json",
   ".supplemental-met.json",
   ".su.json"]

/-- `MEDIA_EXTENSIONS` (scanner.py lines 19-24). -/
def MEDIA_EXTENSIONS : List String :=
  [".jpg", ".jpeg", ".png", ".gif", ".webp", ".heic", ".heif", ".bmp",
   ".tiff", ".tif", ".mp4", ".mov", ".avi", ".mkv", ".webm", ".3gp", ".m4v"]

/-- `SKIP_FILES` (scanner.py line 27): album-level metadata files. -/
def SKIP_FILES : List String := ["Metadaten.json", "metadata.json"]

/-- `is_metadata_json` (scanner.py lines 75-79). -/
def is_metadata_json (filename : String) : Bool :=
  if filename ∈ SKIP_FILES then false
  else JSON_PATTERNS.any (fun pat => endsWithCI filename pat)

/-- `get_media_filename_from_json` (scanner.py lines 82-94): try each suffix
pattern in order; on the first match return the part of the name before the
match (`json_filename[:match.start()]`). -/
def get_media_filename_from_json (json_filename : String) : Option String :=
  match JSON_PATTERNS.find? (fun pat => endsWithCI json_filename pat) with
  | some pat => some (strTake json_filename (strLen json_filename - strLen pat))
  | none => none

/-- `pathlib.PurePath(name).suffix`: the part from the last dot on, unless
the dot is the first or last character of the name. -/
def pathSuffix (name : String) : String :=
  let chars := name.data
  match chars.reverse.findIdx? (fun c => c = '.') with
  | some j =>
    let i := chars.length - 1 - j
    if 0 < i ∧ i < chars.length - 1 then ⟨chars.drop i⟩ else ""
  | none => ""

/-- `is_media_file` (scanner.py lines 97-100). -/
def is_media_file (filename : String) : Bool :=
  lowerStr (pathSuffix filename) ∈ MEDIA_EXTENSIONS

/-- `MediaFilePair` (scanner.py lines 30-42): a dataclass with exactly the
fields `media_path`, `json_path` and the properties `media_name`,
`relative_dir`. -/
structure MediaFilePair where
  media_path : FPath
  json_path : FPath
  deriving DecidableEq, Repr

def MediaFilePair.media_name (p : MediaFilePair) : String := p.media_path.name

def MediaFilePair.relative_dir (p : MediaFilePair) : String := p.media_path.parent

/-- The value of an attribute of a `MediaFilePair`, for modelling Python
attribute lookup. -/
inductive AttrVal where
  | pathV (p : FPath) : AttrVal
  | strV (s : String) : AttrVal
  deriving DecidableEq, Repr

/-- Python attribute lookup on a `MediaFilePair`.  The dataclass declares
only `media_path`, `json_path`, `media_name` and `relative_dir`; looking up
any other attribute — in particular the `video_path` read by cli.py lines
196 and 297 — raises `AttributeError`. -/
def MediaFilePair.getattr (p : MediaFilePair) : String → Except PyExn AttrVal
  | "media_path" => .ok (.pathV p.media_path)
  | "json_path" => .ok (.pathV p.json_path)
  | "media_name" => .ok (.strV p.media_name)
  | "relative_dir" => .ok (.strV p.relative_dir)
  | a => .error (.attributeError a)

/-- Coercion of an attribute value to the `Path | None` the call sites expect
(only reachable if the attribute lookup succeeded, which for `video_path` it
never does). -/
def attrAsOptPath : AttrVal → Option FPath
  | .pathV p => some p
  | .strV _ => none

/-- `ScanResult` (scanner.py lines 45-72). -/
structure ScanResult where
  pairs : List MediaFilePair := []
  orphan_jsons : List FPath := []
  orphan_media : List FPath := []
  skipped_jsons : List FPath := []
  errors : List (FPath × String) := []
  deriving DecidableEq, Repr

/-- A directory-listing entry as produced by `Path.iterdir` / `Path.rglob`:
a path plus whether it is a regular file (non-files are skipped by the
classification loop). -/
structure Entry where
  path : FPath
  isFile : Bool
  deriving DecidableEq, Repr

/-- Python-dict assignment `d[k] = v` on an association list: replace the
value at an existing key in place, else append.  This is exactly CPython's
insertion-order semantics, under which a re-assigned key keeps its original
position. -/
def dictInsert (k v : FPath) : List (FPath × FPath) → List (FPath × FPath)
  | [] => [(k, v)]
  | (k', v') :: rest =>
    if k = k' then (k', v) :: rest else (k', v') :: dictInsert k v rest

/-- `set.add` on a list model of a Python set: insert if absent.  Only
membership is observable for `media_files`; Python's set iteration order is
unspecified, we refine it to insertion order. -/
def setInsert (s : List FPath) (x : FPath) : List FPath :=
  if x ∈ s then s else s ++ [x]

/-- The classification loop's accumulated state (scanner.py lines 129-155):
`skipped_jsons` of the result, the `media_path → json_path` dict, and the
set of media files. -/
structure ClassifyAcc where
  skipped : List FPath := []
  json_files : List (FPath × FPath) := []
  media_files : List FPath := []
  deriving DecidableEq, Repr

/-- One iteration of the classification loop (scanner.py lines 133-155). -/
def classifyStep (st : ClassifyAcc) (e : Entry) : ClassifyAcc :=
  if ¬ e.isFile then st
  else if e.path.name ∈ SKIP_FILES then
    { st with skipped := st.skipped ++ [e.path] }
  else if is_metadata_json e.path.name then
    match get_media_filename_from_json e.path.name with
    | some media_name =>
      -- `if media_name:` — the empty string is falsy, so such a sidecar is dropped
      if media_name = "" then st
      else { st with json_files :=
              dictInsert ⟨e.path.parent, media_name⟩ e.path st.json_files }
    | none => st
  else if is_media_file e.path.name then
    { st with media_files := setInsert st.media_files e.path }
  else st

/-- `scan_directory` (scanner.py lines 103-173).  The filesystem facts the
function consults — existence and directory-ness of the root, and the
(recursive or not) listing of file entries — are passed in explicitly. -/
def scan_directory (root : FPath) (root_exists root_isDir : Bool)
    (entries : List Entry) : ScanResult :=
  if ¬ root_exists then
    { errors := [(root, "Directory does not exist")] }
  else if ¬ root_isDir then
    { errors := [(root, "Path is not a directory")] }
  else
    let st := entries.foldl classifyStep {}
    let pairs := (st.json_files.filter
        (fun kv => decide (kv.1 ∈ st.media_files))).map
      (fun kv => { media_path := kv.1, json_path := kv.2 : MediaFilePair })
    let orphan_jsons := (st.json_files.filter
        (fun kv => ¬ decide (kv.1 ∈ st.media_files))).map Prod.snd
    let matched := (st.json_files.filter
        (fun kv => decide (kv.1 ∈ st.media_files))).map Prod.fst
    let orphan_media := st.media_files.filter (fun m => ¬ decide (m ∈ matched))
    { pairs := pairs
      orphan_jsons := orphan_jsons
      orphan_media := orphan_media
      skipped_jsons := st.skipped
      errors := [] }

/-- All paths mentioned by the five collections of a scan result (the
`errors` collection is path-bearing too, but is empty whenever the listing
loop ran). -/
def resultPaths (r : ScanResult) : List FPath :=
  r.pairs.map MediaFilePair.media_path ++ r.pairs.map MediaFilePair.json_path
    ++ r.orphan_jsons ++ r.orphan_media ++ r.skipped_jsons

/-- The classification-branch condition under which an entry lands in
`skipped_jsons`. -/
def skipB (e : Entry) : Bool :=
  e.isFile && decide (e.path.name ∈ SKIP_FILES)

/-- The classification-branch condition under which an entry is treated as a
per-item sidecar. -/
def sidecarB (e : Entry) : Bool :=
  e.isFile && !decide (e.path.name ∈ SKIP_FILES) &&
    is_metadata_json e.path.name

/-- The derived media name of an entry's filename (empty when the suffix
match yields no name, or when no pattern matches). -/
def mnameOf (e : Entry) : String :=
  (get_media_filename_from_json e.path.name).getD ""

/-- A sidecar entry that actually enters the media→json dict: its derived
media name is nonempty (`if media_name:`). -/
def goodSidecarB (e : Entry) : Bool :=
  sidecarB e && !decide (mnameOf e = "")

/-- The expected-media dict key contributed by a good sidecar entry
(`entry.parent / media_name`). -/
def keyOf (e : Entry) : FPath := ⟨e.path.parent, mnameOf e⟩

/-- The classification-branch condition under which an entry joins
`media_files`. -/
def mediaB (e : Entry) : Bool :=
  e.isFile && !decide (e.path.name ∈ SKIP_FILES) &&
    !is_metadata_json e.path.name && is_media_file e.path.name

/-- The key/value assignments performed on `json_files` by the
classification loop, in scan order. -/
def kvsOf (entries : List Entry) : List (FPath × FPath) :=
  (entries.filter goodSidecarB).map (fun e => (keyOf e, e.path))

/-- The last binding assigned to key `k` by a sequence of dict assignments
(the one that survives in the dict). -/
def lookupLast (kvs : List (FPath × FPath)) (k : FPath) :
    Option (FPath × FPath) :=
  kvs.reverse.find? (fun kv => decide (kv.1 = k))

/-- The last sidecar entry in scan order whose derived media path is `k`:
last-seen-wins dict assignment keeps exactly this one. -/
def lastClaimant (entries : List Entry) (k : FPath) : Option Entry :=
  (entries.filter (fun e => goodSidecarB e && decide (keyOf e = k))).getLast?

/-- The final `media_path → json_path` dict built by the classification
loop. -/
def scanDict (entries : List Entry) : List (FPath × FPath) :=
  (kvsOf entries).foldl (fun d kv => dictInsert kv.1 kv.2 d) []

/-- The final `media_files` set built by the classification loop. -/
def scanMedia (entries : List Entry) : List FPath :=
  ((entries.filter mediaB).map Entry.path).foldl setInsert []

/-- The final `skipped_jsons` list built by the classification loop. -/
def scanSkipped (entries : List Entry) : List FPath :=
  (entries.filter skipB).map Entry.path

/-! ## metadata.py -/

/-- `GoogleMetadata` (metadata.py lines 14-38).  Timestamps are aware UTC
datetimes at seconds resolution, embedded as Unix seconds.  `favorited` is
typed `bool` in the source but is assigned the raw JSON value, so it is a
`JVal` here. -/
structure GoogleMetadata where
  title : Option String := none
  description : Option String := none
  photo_taken_time : Option Int := none
  creation_time : Option Int := none
  latitude : Option ℚ := none
  longitude : Option ℚ := none
  altitude : Option ℚ := none
  favorited : JVal := .jbool false
  deriving DecidableEq, Repr

/-- `GoogleMetadata.has_gps` (metadata.py lines 26-33). -/
def GoogleMetadata.has_gps (m : GoogleMetadata) : Bool :=
  decide (m.latitude ≠ none) && decide (m.longitude ≠ none) &&
    decide (m.latitude ≠ some 0 ∨ m.longitude ≠ some 0)

/-- `GoogleMetadata.has_date` (metadata.py lines 35-38). -/
def GoogleMetadata.has_date (m : GoogleMetadata) : Bool :=
  decide (m.photo_taken_time ≠ none)

/-- `VerificationResult` (metadata.py lines 41-48). -/
structure VerificationResult where
  success : Bool
  date_match : Bool := false
  gps_match : Bool := false
  description_match : Bool := false
  message : String := ""
  deriving DecidableEq, Repr

/-- The JSON object of one sidecar file, per the fixed schema consumed by
`parse_google_json`: optional `title`, `description`, nested timestamp
strings, `geoData` numbers, and a raw `favorited` value.  An absent `geoData`
object behaves as one with all keys absent (`data.get("geoData", {})`). -/
structure SidecarJson where
  title : Option String := none
  description : Option String := none
  photoTakenTimeTs : Option String := none
  creationTimeTs : Option String := none
  geoLatitude : Option ℚ := none
  geoLongitude : Option ℚ := none
  geoAltitude : Option ℚ := none
  favorited : Option JVal := none
  deriving DecidableEq, Repr

/-- `parse_google_json` (metadata.py lines 51-111).  The argument is the
outcome of reading and JSON-decoding the file: `none` models an unreadable
or malformed file (the caught `OSError`/`JSONDecodeError`). -/
def parse_google_json (content : Option SidecarJson) : Option GoogleMetadata :=
  match content with
  | none => none
  | some data =>
    let description :=
      -- `desc = data.get("description", ""); if desc and desc.strip():`
      let desc := data.description.getD ""
      if desc ≠ "" ∧ desc.trim ≠ "" then some desc.trim else none
    let photo_taken_time := data.photoTakenTimeTs.bind pyIntOfString
    let creation_time := data.creationTimeTs.bind pyIntOfString
    let (latitude, longitude, altitude) :=
      match data.geoLatitude, data.geoLongitude with
      | some lat, some lon =>
        -- Only set if not both zero (Google uses 0,0 for "no location")
        if lat ≠ 0 ∨ lon ≠ 0 then
          (some lat, some lon,
            match data.geoAltitude with
            | some alt => if alt ≠ 0 then some alt else none
            | none => none)
        else (none, none, none)
      | _, _ => (none, none, none)
    some
      { title := data.title
        description := description
        photo_taken_time := photo_taken_time
        creation_time := creation_time
        latitude := latitude
        longitude := longitude
        altitude := altitude
        favorited := data.favorited.getD (.jbool false) }

/-- Zero-padded two-digit rendering of a number below 100. -/
def pad2 (n : Nat) : String :=
  if n < 10 then "0" ++ toString n else toString n

/-- Zero-padded four-digit year. -/
def pad4 (n : Int) : String :=
  let s := toString n.toNat
  if s.data.length ≥ 4 then s
  else ⟨List.replicate (4 - s.data.length) '0'⟩ ++ s

/-- Gregorian civil date from days since the Unix epoch (the inverse
calculation inside `datetime.fromtimestamp(ts, tz=timezone.utc)`). -/
def civilFromDays (z0 : Int) : Int × Nat × Nat :=
  let z := z0 + 719468
  let era : Int := z.fdiv 146097
  let doe : Nat := (z - era * 146097).toNat
  let yoe : Nat := (doe - doe / 1460 + doe / 36524 - doe / 146096) / 365
  let doy : Nat := doe - (365 * yoe + yoe / 4 - yoe / 100)
  let mp : Nat := (5 * doy + 2) / 153
  let d : Nat := doy - (153 * mp + 2) / 5 + 1
  let m : Nat := if mp < 10 then mp + 3 else mp - 9
  let y : Int := (yoe : Int) + era * 400 + (if m ≤ 2 then 1 else 0)
  (y, m, d)

/-- `photo_taken_time.strftime("%Y:%m:%d %H:%M:%S")` on a UTC datetime
embedded as Unix seconds. -/
def formatTimestamp (t : Int) : String :=
  let days := t.fdiv 86400
  let secs := (t.emod 86400).toNat
  let ymd := civilFromDays days
  pad4 ymd.1 ++ ":" ++ pad2 ymd.2.1 ++ ":" ++ pad2 ymd.2.2 ++ " " ++
    pad2 (secs / 3600) ++ ":" ++ pad2 (secs % 3600 / 60) ++ ":" ++
    pad2 (secs % 60)

/-- The tag dictionary returned by `exiftool.get_metadata` for one file. -/
def ActualDict := List (String × JVal)

/-- `actual.get(key)`: first binding of the key, if any. -/
def dget (d : ActualDict) (key : String) : Option JVal :=
  (d.find? (fun kv => kv.1 = key)).map Prod.snd

/-- The parameter dictionary built by `write_metadata_to_file` (metadata.py
lines 163-194), as an insertion-ordered key/value list. -/
def buildParams (m : GoogleMetadata) : List (String × JVal) :=
  (match m.photo_taken_time with
   | some t =>
     let dt_str := formatTimestamp t
     [("DateTimeOriginal", JVal.jstr dt_str), ("CreateDate", JVal.jstr dt_str),
      ("ModifyDate", JVal.jstr dt_str), ("SubSecTimeOriginal", JVal.jstr "00"),
      ("SubSecCreateDate", JVal.jstr "00"), ("SubSecModifyDate", JVal.jstr "00")]
   | none => []) ++
  (if m.has_gps then
    match m.latitude, m.longitude with
    | some lat, some lon =>
      [("GPSLatitude", JVal.jnum lat), ("GPSLongitude", JVal.jnum lon),
       ("GPSLatitudeRef", JVal.jstr (if lat ≥ 0 then "N" else "S")),
       ("GPSLongitudeRef", JVal.jstr (if lon ≥ 0 then "E" else "W"))] ++
      (match m.altitude with
       | some alt =>
         [("GPSAltitude", JVal.jnum (abs alt)),
          ("GPSAltitudeRef", JVal.jnum (if alt ≥ 0 then 0 else 1))]
       | none => [])
    | _, _ => []  -- unreachable: has_gps guarantees both coordinates present
   else []) ++
  (match m.description with
   | some d =>
     if d ≠ "" then
       [("ImageDescription", JVal.jstr d), ("XMP:Description", JVal.jstr d),
        ("IPTC:Caption-Abstract", JVal.jstr d)]
     else []
   | none => [])

/-- The filesystem and ExifTool-process boundary, as consulted by one
command run.  `contents p` is the parse outcome of reading JSON file `p`;
`engineRead p` is `exiftool.get_metadata`'s tag dictionary for `p` (`none` =
read failure); `writeError p` is `some msg` when `et.set_tags` on `p` raises;
`unlinkOk p` tells whether `p.unlink()` succeeds. -/
structure PyEnv where
  contents : FPath → Option SidecarJson
  engineRead : FPath → Option ActualDict
  fileExists : FPath → Bool
  writeError : FPath → Option String
  unlinkOk : FPath → Bool

/-- `write_metadata_to_file` (metadata.py lines 144-204). -/
def write_metadata_to_file (env : PyEnv) (media_path : FPath)
    (metadata : GoogleMetadata) : Bool × String :=
  if ¬ env.fileExists media_path then
    (false, "File not found: " ++ pathStr media_path)
  else
    let params := buildParams metadata
    if params.isEmpty then (true, "No metadata to write")
    else
      match env.writeError media_path with
      | none => (true, "Wrote " ++ toString params.length ++ " metadata fields")
      | some e => (false, "ExifTool error: " ++ e)

/-- `read_metadata_from_file` (metadata.py lines 207-226). -/
def read_metadata_from_file (env : PyEnv) (media_path : FPath) :
    Option ActualDict :=
  env.engineRead media_path

/-- `verify_metadata` (metadata.py lines 229-311). -/
def verify_metadata (env : PyEnv) (media_path : FPath)
    (expected : GoogleMetadata) : VerificationResult :=
  match read_metadata_from_file env media_path with
  | none =>
    { success := false, message := "Could not read metadata from file" }
  | some actual =>
    -- Verify date
    let dateRes : Bool × List String :=
      match expected.photo_taken_time with
      | some t =>
        let expected_dt := formatTimestamp t
        let actual_dt := pyOr (dget actual "EXIF:DateTimeOriginal")
          (dget actual "DateTimeOriginal")
        match pyTruthy actual_dt with
        | some v =>
          let actual_dt_clean := strTake (pyStr v) 19
          if actual_dt_clean = expected_dt then (true, [])
          else (false, ["Date mismatch: expected " ++ expected_dt ++ ", got "
                          ++ actual_dt_clean])
        | none => (false, ["DateTimeOriginal not found in file"])
      | none => (true, [])  -- No date to verify
    -- Verify GPS
    let gpsRes : Bool × List String :=
      if expected.has_gps then
        let actual_lat := pyOr (dget actual "EXIF:GPSLatitude")
          (dget actual "GPSLatitude")
        let actual_lon := pyOr (dget actual "EXIF:GPSLongitude")
          (dget actual "GPSLongitude")
        match actual_lat, actual_lon with
        | some la, some lo =>
          -- `float(actual_...)` or `abs(expected....)` raising is caught below
          match pyFloat la, pyFloat lo, expected.latitude, expected.longitude with
          | some fla, some flo, some elat, some elon =>
            let lat_diff := abs (fla - abs elat)
            let lon_diff := abs (flo - abs elon)
            -- Allow small tolerance for floating point
            if lat_diff < 1 / 10000 ∧ lon_diff < 1 / 10000 then (true, [])
            else (false, ["GPS mismatch: expected (" ++ qRepr elat ++ ", "
                            ++ qRepr elon ++ "), got (" ++ pyStr la ++ ", "
                            ++ pyStr lo ++ ")"])
          | _, _, _, _ => (false, ["Could not parse GPS coordinates"])
        | _, _ => (false, ["GPS coordinates not found in file"])
      else (true, [])  -- No GPS to verify
    -- Verify description
    let descRes : Bool × List String :=
      match expected.description with
      | some d =>
        if d ≠ "" then
          let actual_desc := pyOr (pyOr (pyOr
            (dget actual "EXIF:ImageDescription")
            (dget actual "ImageDescription"))
            (dget actual "XMP:Description"))
            (dget actual "IPTC:Caption-Abstract")
          let m : Bool :=
            match actual_desc with
            | some (.jstr s) => decide (s = d)
            | _ => false
          if m then (true, [])
          else if truthyOpt actual_desc then (false, ["Description mismatch"])
          else (false, [])
        else (true, [])
      | none => (true, [])  -- No description to verify
    let issues := dateRes.2 ++ gpsRes.2 ++ descRes.2
    { success := dateRes.1 && gpsRes.1 && descRes.1
      date_match := dateRes.1
      gps_match := gpsRes.1
      description_match := descRes.1
      message := if issues.isEmpty then "All metadata verified"
                 else String.intercalate "; " issues }

/-- The failing-side/field list built by `process_file` when a linked-pair
verification fails (metadata.py lines 390-402), from the image flags
captured before combination and the video flags. -/
def combinedIssues (img_date_ok img_gps_ok img_desc_ok vid_date_ok vid_gps_ok
    vid_desc_ok : Bool) : List String :=
  (if img_date_ok then [] else ["image date"]) ++
  (if img_gps_ok then [] else ["image GPS"]) ++
  (if img_desc_ok then [] else ["image description"]) ++
  (if vid_date_ok then [] else ["video date"]) ++
  (if vid_gps_ok then [] else ["video GPS"]) ++
  (if vid_desc_ok then [] else ["video description"])

/-- The linked-pair combination step of `process_file` (metadata.py lines
376-405): both sides must succeed; the message lists every failing
(side, field). -/
def combineVerification (verification video_verification :
    VerificationResult) : VerificationResult :=
  let img_date_ok := verification.date_match
  let img_gps_ok := verification.gps_match
  let img_desc_ok := verification.description_match
  let success := verification.success && video_verification.success
  let date_match := verification.date_match && video_verification.date_match
  let gps_match := verification.gps_match && video_verification.gps_match
  let description_match :=
    verification.description_match && video_verification.description_match
  { success := success
    date_match := date_match
    gps_match := gps_match
    description_match := description_match
    message :=
      if ¬ success then
        "Verification failed on: " ++ String.intercalate ", "
          (combinedIssues img_date_ok img_gps_ok img_desc_ok
            video_verification.date_match video_verification.gps_match
            video_verification.description_match)
      else "All metadata verified (image and video)" }

/-- The verification tail of `process_file` (metadata.py lines 369-410). -/
def processVerify (env : PyEnv) (media_path : FPath)
    (metadata : GoogleMetadata) (verify : Bool) (message : String)
    (video_path : Option FPath) : Bool × String × Option VerificationResult :=
  if verify then
    let verification := verify_metadata env media_path metadata
    let verification :=
      match video_path with
      | some vp =>
        combineVerification verification (verify_metadata env vp metadata)
      | none => verification
    if ¬ verification.success then
      (false, "Verification failed: " ++ verification.message,
        some verification)
    else (true, message, some verification)
  else (true, message, none)

/-- `MetadataProcessor.process_file` (metadata.py lines 331-410).  `etInit`
models whether the processor was entered via its context manager. -/
def process_file (env : PyEnv) (etInit : Bool) (media_path json_path : FPath)
    (verify : Bool) (video_path : Option FPath) :
    Bool × String × Option VerificationResult :=
  if ¬ etInit then
    (false, "MetadataProcessor not initialized (use with statement)", none)
  else
    match parse_google_json (env.contents json_path) with
    | none => (false, "Failed to parse JSON: " ++ pathStr json_path, none)
    | some metadata =>
      let w1 := write_metadata_to_file env media_path metadata
      if ¬ w1.1 then (false, w1.2, none)
      else
        match video_path with
        | some vp =>
          let w2 := write_metadata_to_file env vp metadata
          if ¬ w2.1 then
            (false, "Image: " ++ w1.2 ++ "; Video: " ++ w2.2, none)
          else
            processVerify env media_path metadata verify
              (w1.2 ++ "; Video: " ++ w2.2) (some vp)
        | none => processVerify env media_path metadata verify w1.2 none

/-! ## cli.py -/

/-- The user-facing command environment: whether `check_exiftool_available`
succeeds, and how the user answers `confirm_action`. -/
structure CliEnv where
  exiftool_available : Bool
  confirm : Bool

/-- `attach` command flags. -/
structure AttachArgs where
  recursive : Bool := false
  dry_run : Bool := false
  no_verify : Bool := false
  yes : Bool := false

/-- `cleanup` command flags. -/
structure CleanupArgs where
  recursive : Bool := false
  no_verify : Bool := false
  yes : Bool := false

/-- `ProcessingStats` (reporter.py lines 34-52). -/
structure ProcessingStats where
  total : Nat := 0
  successful : Nat := 0
  failed : Nat := 0
  skipped : Nat := 0
  verified : Nat := 0
  verification_failed : Nat := 0
  failures : List (FPath × String) := []
  verification_failures : List (FPath × String) := []
  deriving DecidableEq, Repr

/-- Outcome of one `attach` run: the stats, the media files for which
`process_file` was actually invoked, the exception (if one escaped the
loop), and the process exit code after `main`'s handler (cli.py lines
355-370: `KeyboardInterrupt` → 130, any other exception → 1). -/
structure AttachOutcome where
  stats : ProcessingStats := {}
  processed : List FPath := []
  exn : Option PyExn := none
  exitCode : Int := 0
  deriving Repr

/-- The per-pair loop of `cmd_attach` (cli.py lines 190-212).  Python
evaluates the arguments of the `processor.process_file(...)` call left to
right, so `pair.video_path` is looked up before the call; if that lookup
raises, the exception escapes with the stats accumulated so far and no
further pair is processed. -/
def attach_loop (env : PyEnv) (verify : Bool) :
    List MediaFilePair → ProcessingStats → List FPath →
      ProcessingStats × List FPath × Option PyExn
  | [], stats, processed => (stats, processed, none)
  | pair :: rest, stats, processed =>
    match pair.getattr "video_path" with
    | .error e => (stats, processed, some e)
    | .ok v =>
      let r := process_file env true pair.media_path pair.json_path verify
        (attrAsOptPath v)
      let stats :=
        if r.1 then
          { stats with
            successful := stats.successful + 1
            verified := if r.2.2.isSome then stats.verified + 1
                        else stats.verified }
        else
          { stats with
            failed := stats.failed + 1
            failures := stats.failures ++ [(pair.media_path, r.2.1)]
            verification_failed :=
              match r.2.2 with
              | some vr => if ¬ vr.success then stats.verification_failed + 1
                           else stats.verification_failed
              | none => stats.verification_failed
            verification_failures :=
              match r.2.2 with
              | some vr => if ¬ vr.success then
                  stats.verification_failures ++ [(pair.media_path, vr.message)]
                else stats.verification_failures
              | none => stats.verification_failures }
      attach_loop env verify rest stats (processed ++ [pair.media_path])

/-- `cmd_attach` (cli.py lines 144-217) composed with `main`'s exception
handler (cli.py lines 355-370). -/
def cmd_attach (env : PyEnv) (cli : CliEnv) (args : AttachArgs) (root : FPath)
    (root_exists root_isDir : Bool) (entries : List Entry) : AttachOutcome :=
  if ¬ root_exists then { exitCode := 1 }
  else if ¬ cli.exiftool_available then { exitCode := 1 }
  else
    let result := scan_directory root root_exists root_isDir entries
    if result.pairs.isEmpty then { exitCode := 0 }
    else if args.dry_run then { exitCode := 0 }
    else if ¬ args.yes ∧ ¬ cli.confirm then { exitCode := 0 }
    else
      let r := attach_loop env (¬ args.no_verify) result.pairs
        { total := result.pairs.length } []
      { stats := r.1
        processed := r.2.1
        exn := r.2.2
        exitCode :=
          match r.2.2 with
          | some .keyboardInterrupt => 130
          | some _ => 1
          | none => if r.1.failed > 0 then 1 else 0 }

/-- The linked-pair combination step of `cmd_cleanup`'s verification branch
(cli.py lines 303-318).  Unlike `process_file`, the failure message is built
from the already-combined flags. -/
def combineVerificationCleanup (verification video_verification :
    VerificationResult) : VerificationResult :=
  let success := verification.success && video_verification.success
  let date_match := verification.date_match && video_verification.date_match
  let gps_match := verification.gps_match && video_verification.gps_match
  let description_match :=
    verification.description_match && video_verification.description_match
  { success := success
    date_match := date_match
    gps_match := gps_match
    description_match := description_match
    message :=
      if ¬ success then
        "Verification failed on: " ++ String.intercalate ", "
          ((if date_match then [] else ["image or video date"]) ++
           (if gps_match then [] else ["image or video GPS"]) ++
           (if description_match then [] else ["image or video description"]))
      else verification.message }

/-- Accumulated state of the cleanup loops: the `deleted`/`failed`/`skipped`
counters of `cmd_cleanup` and the json files whose `unlink()` succeeded. -/
structure CleanupState where
  deleted : Nat := 0
  failed : Nat := 0
  skipped : Nat := 0
  deletedPaths : List FPath := []
  deriving DecidableEq, Repr

/-- The `--no-verify` deletion loop of `cmd_cleanup` (cli.py lines
266-276). -/
def cleanup_noverify_loop (env : PyEnv) :
    List MediaFilePair → CleanupState → CleanupState
  | [], st => st
  | pair :: rest, st =>
    if env.unlinkOk pair.json_path then
      cleanup_noverify_loop env rest
        { st with deleted := st.deleted + 1
                  deletedPaths := st.deletedPaths ++ [pair.json_path] }
    else
      cleanup_noverify_loop env rest { st with failed := st.failed + 1 }

/-- The verify-then-delete loop of `cmd_cleanup` (cli.py lines 278-333).
After a successful parse and the primary `verify_metadata` call, the source
reads `pair.video_path` (line 297); when that lookup raises, the exception
escapes with the state accumulated so far. -/
def cleanup_verify_loop (env : PyEnv) :
    List MediaFilePair → CleanupState → CleanupState × Option PyExn
  | [], st => (st, none)
  | pair :: rest, st =>
    match parse_google_json (env.contents pair.json_path) with
    | none => cleanup_verify_loop env rest { st with skipped := st.skipped + 1 }
    | some metadata =>
      let verification := verify_metadata env pair.media_path metadata
      match pair.getattr "video_path" with
      | .error e => (st, some e)
      | .ok v =>
        let verification :=
          match attrAsOptPath v with
          | some vp =>
            combineVerificationCleanup verification
              (verify_metadata env vp metadata)
          | none => verification
        if verification.success then
          if env.unlinkOk pair.json_path then
            cleanup_verify_loop env rest
              { st with deleted := st.deleted + 1
                        deletedPaths := st.deletedPaths ++ [pair.json_path] }
          else
            cleanup_verify_loop env rest { st with failed := st.failed + 1 }
        else
          cleanup_verify_loop env rest { st with skipped := st.skipped + 1 }

/-- Outcome of one `cleanup` run, including `main`'s exception handling. -/
structure CleanupOutcome where
  state : CleanupState := {}
  exn : Option PyExn := none
  exitCode : Int := 0
  deriving DecidableEq, Repr

/-- `cmd_cleanup` (cli.py lines 220-344) composed with `main`'s exception
handler.  Orphan json files are only counted for the closing warning (cli.py
lines 337-342); no deletion is attempted on them. -/
def cmd_cleanup (env : PyEnv) (cli : CliEnv) (args : CleanupArgs)
    (root : FPath) (root_exists root_isDir : Bool) (entries : List Entry) :
    CleanupOutcome :=
  if ¬ root_exists then { exitCode := 1 }
  else if ¬ args.no_verify ∧ ¬ cli.exiftool_available then { exitCode := 1 }
  else
    let result := scan_directory root root_exists root_isDir entries
    if result.pairs.isEmpty then { exitCode := 0 }
    else if ¬ args.yes ∧ ¬ cli.confirm then { exitCode := 0 }
    else if args.no_verify then
      let st := cleanup_noverify_loop env result.pairs {}
      { state := st, exn := none, exitCode := if st.failed > 0 then 1 else 0 }
    else
      let r := cleanup_verify_loop env result.pairs {}
      { state := r.1
        exn := r.2
        exitCode :=
          match r.2 with
          | some .keyboardInterrupt => 130
          | some _ => 1
          | none => if r.1.failed > 0 then 1 else 0 }

/-! ## Concrete fixtures used by witnesses and counterexamples -/

/-- A media file `/t/a.jpg`. -/
def exMedia : FPath := ⟨"/t", "a.jpg"⟩

/-- Its sidecar `/t/a.jpg.su.json` (truncated suffix form). -/
def exJson : FPath := ⟨"/t", "a.jpg.su.json"⟩

/-- A live-photo companion video `/t/a.mp4`. -/
def exVideo : FPath := ⟨"/t", "a.mp4"⟩

/-- The scanned root directory `/t`. -/
def exRoot : FPath := ⟨"/t", ""⟩

/-- A listing containing exactly the media file and its sidecar. -/
def exEntries : List Entry := [⟨exMedia, true⟩, ⟨exJson, true⟩]

/-- A sidecar whose only payload is the GPS position `(37.7749, -122.4194)`. -/
def gpsSidecar : SidecarJson :=
  { geoLatitude := some 37.7749, geoLongitude := some (-122.4194) }

/-- `parse_google_json` of `gpsSidecar`. -/
def gpsMeta : GoogleMetadata :=
  { latitude := some 37.7749, longitude := some (-122.4194) }

/-- Read-back tags with the longitude still carrying its sign, the shape
named by the spec's GPS round-trip example. -/
def actSigned : ActualDict :=
  [("EXIF:GPSLatitude", JVal.jnum 37.77485),
   ("EXIF:GPSLongitude", JVal.jnum (-122.41945))]

/-- Read-back tags in magnitude form (as stored with reference letters). -/
def actMagnitude : ActualDict :=
  [("EXIF:GPSLatitude", JVal.jnum 37.77485),
   ("EXIF:GPSLongitude", JVal.jnum 122.41945)]

/-- Read-back tags that match `gpsMeta` exactly in magnitude form. -/
def actExact : ActualDict :=
  [("EXIF:GPSLatitude", JVal.jnum 37.7749),
   ("EXIF:GPSLongitude", JVal.jnum 122.4194)]

/-- Read-back tags whose longitude is far off. -/
def actFarLon : ActualDict :=
  [("EXIF:GPSLatitude", JVal.jnum 37.7749),
   ("EXIF:GPSLongitude", JVal.jnum 100)]

/-- Environment whose every tag read returns `actSigned`. -/
def envSigned : PyEnv :=
  { contents := fun _ => none
    engineRead := fun _ => some actSigned
    fileExists := fun _ => true
    writeError := fun _ => none
    unlinkOk := fun _ => true }

/-- Environment whose every tag read returns `actMagnitude`. -/
def envMagnitude : PyEnv := { envSigned with engineRead := fun _ => some actMagnitude }

/-- Environment for the live-photo scenario: the sidecar parses to
`gpsMeta`, the primary media reads back matching tags, the linked video
reads back a wrong longitude, and all writes succeed. -/
def envLive : PyEnv :=
  { contents := fun p => if p = exJson then some gpsSidecar else none
    engineRead := fun p =>
      if p = exMedia then some actExact
      else if p = exVideo then some actFarLon
      else none
    fileExists := fun _ => true
    writeError := fun _ => none
    unlinkOk := fun _ => true }

/-- Environment for the cleanup scenario of claim C1: the sidecar parses to
`gpsMeta` but the media file's tags read back empty, so verification of the
pair fails. -/
def envCleanupFail : PyEnv :=
  { contents := fun p => if p = exJson then some gpsSidecar else none
    engineRead := fun _ => some []
    fileExists := fun _ => true
    writeError := fun _ => none
    unlinkOk := fun _ => true }

/-- Environment in which every sidecar file is malformed (every parse
fails). -/
def envMalformed : PyEnv :=
  { contents := fun _ => none
    engineRead := fun _ => some []
    fileExists := fun _ => true
    writeError := fun _ => none
    unlinkOk := fun _ => true }

end GPhotosMeta

/-! # Theorems -/

namespace GPhotosMeta

/-- `verify_metadata`'s overall success flag always equals the conjunction
of its three component match flags (on the read-failure path all four are
false). -/
theorem verify_metadata_success_eq (env : PyEnv) (p : FPath)
    (e : GoogleMetadata) :
    (verify_metadata env p e).success =
      ((verify_metadata env p e).date_match &&
       (verify_metadata env p e).gps_match &&
       (verify_metadata env p e).description_match) := by
  unfold verify_metadata read_metadata_from_file
  cases env.engineRead p <;> simp

/-- C7: for every root path that does not exist or is not a directory,
`scan_directory` returns (rather than throwing) a result whose `errors`
list has exactly one entry and whose four other collections are all
empty. -/
theorem C7_bad_root_single_error (root : FPath) (root_exists root_isDir : Bool)
    (entries : List Entry) (h : root_exists = false ∨ root_isDir = false) :
    (scan_directory root root_exists root_isDir entries).errors.length = 1 ∧
    (scan_directory root root_exists root_isDir entries).pairs = [] ∧
    (scan_directory root root_exists root_isDir entries).orphan_jsons = [] ∧
    (scan_directory root root_exists root_isDir entries).orphan_media = [] ∧
    (scan_directory root root_exists root_isDir entries).skipped_jsons = [] := by
  rcases h with h | h
  · subst h; simp [scan_directory]
  · subst h; cases root_exists <;> simp [scan_directory]

/-- Witness for C7 at a concrete missing root. -/
theorem C7_bad_root_single_error_witness :
    (scan_directory exRoot false true exEntries).errors.length = 1 ∧
    (scan_directory exRoot false true exEntries).pairs = [] ∧
    (scan_directory exRoot false true exEntries).orphan_jsons = [] ∧
    (scan_directory exRoot false true exEntries).orphan_media = [] ∧
    (scan_directory exRoot false true exEntries).skipped_jsons = [] :=
  C7_bad_root_single_error exRoot false true exEntries (Or.inl rfl)

/-- C5: for every parsed sidecar the GPS fields of the result are either
both absent, or both present and not simultaneously `(0, 0)`; in
particular a sidecar whose `geoData` is `{latitude: 0, longitude: 0}`
parses to a record with `has_gps = false`. -/
theorem C5_gps_sentinel (d : SidecarJson) (md : GoogleMetadata)
    (h : parse_google_json (some d) = some md) :
    ((md.latitude = none ∧ md.longitude = none) ∨
      (∃ la lo, md.latitude = some la ∧ md.longitude = some lo ∧
        ¬ (la = 0 ∧ lo = 0))) ∧
    (d.geoLatitude = some 0 → d.geoLongitude = some 0 →
      md.has_gps = false) := by
  simp only [parse_google_json, Option.some.injEq] at h
  subst h
  rcases hla : d.geoLatitude with _ | la <;>
    rcases hlo : d.geoLongitude with _ | lo <;>
      simp only [hla, hlo, GoogleMetadata.has_gps]
  · simp
  · simp
  · simp
  · by_cases hz : la ≠ 0 ∨ lo ≠ 0
    · constructor
      · refine Or.inr ⟨la, lo, ?_, ?_, ?_⟩
        · simp only [if_pos hz]
        · simp only [if_pos hz]
        · rintro ⟨h1, h2⟩
          rcases hz with hz | hz
          · exact hz h1
          · exact hz h2
      · intro h0a h0b
        rw [Option.some.injEq] at h0a h0b
        exact absurd hz (by simp [h0a, h0b])
    · constructor
      · exact Or.inl ⟨by simp only [if_neg hz], by simp only [if_neg hz]⟩
      · intro _ _
        simp only [if_neg hz]
        simp

/-- Witness for C5 at the sentinel sidecar `geoData = {latitude: 0,
longitude: 0}`. -/
theorem C5_gps_sentinel_witness :
    (({} : GoogleMetadata).latitude = none ∧
      ({} : GoogleMetadata).longitude = none) ∧
    ({} : GoogleMetadata).has_gps = false := by
  have h := C5_gps_sentinel
    { geoLatitude := some 0, geoLongitude := some 0 } {}
    (by with_unfolding_all decide)
  refine ⟨?_, h.2 rfl rfl⟩
  rcases h.1 with h1 | ⟨la, lo, hla, _⟩
  · exact h1
  · exact absurd hla (by simp)

/-- C10: for every parsed sidecar, the altitude field is present only when
GPS is present (altitude present implies `has_gps`); a sidecar carrying an
altitude but absent or sentinel `(0,0)` coordinates parses to a record with
absent altitude. -/
theorem C10_altitude_implies_gps (d : SidecarJson) (md : GoogleMetadata)
    (h : parse_google_json (some d) = some md) :
    (md.altitude ≠ none → md.has_gps = true) ∧
    ((d.geoLatitude = none ∨ d.geoLongitude = none ∨
        (d.geoLatitude = some 0 ∧ d.geoLongitude = some 0)) →
      md.altitude = none) := by
  simp only [parse_google_json, Option.some.injEq] at h
  subst h
  rcases hla : d.geoLatitude with _ | la <;>
    rcases hlo : d.geoLongitude with _ | lo <;>
      simp only [hla, hlo, GoogleMetadata.has_gps]
  · simp
  · simp
  · simp
  · by_cases hz : la ≠ 0 ∨ lo ≠ 0
    · constructor
      · intro _
        simp only [if_pos hz, Bool.and_eq_true, decide_eq_true_eq, ne_eq]
        refine ⟨⟨by simp, by simp⟩, ?_⟩
        rcases hz with hz | hz
        · exact Or.inl (by simp [hz])
        · exact Or.inr (by simp [hz])
      · rintro (hc | hc | hc)
        · simp at hc
        · simp at hc
        · obtain ⟨h1, h2⟩ := hc
          rw [Option.some.injEq] at h1 h2
          exact absurd hz (by simp [h1, h2])
    · simp only [if_neg hz]
      simp

/-- Witness for C10: a sidecar with an altitude of 12.5 but sentinel
coordinates parses to a record with absent altitude (and the
altitude-implies-GPS implication holds there). -/
theorem C10_altitude_implies_gps_witness :
    (parse_google_json (some { geoLatitude := some 0,
                               geoLongitude := some 0,
                               geoAltitude := some 12.5 })).map
        GoogleMetadata.altitude
      = some none := by
  have h := C10_altitude_implies_gps
    { geoLatitude := some 0, geoLongitude := some 0, geoAltitude := some 12.5 }
    {} (by with_unfolding_all decide)
  have h2 := h.2 (Or.inr (Or.inr ⟨rfl, rfl⟩))
  rw [show parse_google_json (some { geoLatitude := some 0,
                                     geoLongitude := some 0,
                                     geoAltitude := some 12.5 })
      = some {} from by with_unfolding_all decide]
  exact congrArg some h2

/-- C8: for every sidecar JSON input, the parsed `favorited` is `False`
when the key is absent (or its value were not boolean-coercible — in Python
`bool(v)` is total, so that case is vacuous), and otherwise equals the raw
JSON value. -/
theorem C8_favorited_default (d : SidecarJson) (md : GoogleMetadata)
    (h : parse_google_json (some d) = some md) :
    ((d.favorited = none ∨ ∃ v, d.favorited = some v ∧ ¬ boolCoercible v) →
      md.favorited = .jbool false) ∧
    (∀ v, d.favorited = some v → md.favorited = v) := by
  simp only [parse_google_json, Option.some.injEq] at h
  subst h
  constructor
  · rintro (hf | ⟨v, _, hv⟩)
    · simp [hf]
    · exact absurd trivial hv
  · intro v hv
    simp [hv]

/-- Witness for C8: absent key gives `False`, a present `true` value is
passed through. -/
theorem C8_favorited_default_witness :
    ({} : GoogleMetadata).favorited = .jbool false ∧
    (parse_google_json (some { favorited := some (.jbool true) })).map
        GoogleMetadata.favorited = some (.jbool true) := by
  constructor
  · exact (C8_favorited_default {} {} (by with_unfolding_all decide)).1
      (Or.inl rfl)
  · rw [show parse_google_json (some { favorited := some (.jbool true) })
        = some { favorited := .jbool true } from by with_unfolding_all decide]
    exact congrArg some ((C8_favorited_default
      { favorited := some (.jbool true) } { favorited := .jbool true }
      (by with_unfolding_all decide)).2 (.jbool true) rfl)

/-- C1 (code bug): in cleanup with verification enabled, a pair whose
verification fails is supposed to be counted as skipped with its sidecar
kept; instead, as soon as the sidecar parses, line 297's `pair.video_path`
raises `AttributeError`, the command aborts through `main`'s handler with
exit code 1, and the pair is counted nowhere (`skipped = 0`).  No sidecar
is deleted, but not for the specified reason. -/
theorem C1_cleanup_aborts_before_skip :
    cmd_cleanup envCleanupFail ⟨true, true⟩ {} exRoot true true exEntries =
      { state := { deleted := 0, failed := 0, skipped := 0,
                   deletedPaths := [] },
        exn := some (.attributeError "video_path"),
        exitCode := 1 } := by
  with_unfolding_all decide

/-- Counterexample for C3: at the spec's own example — expected
`(37.7749, -122.4194)`, read-back `(37.77485, -122.41945)` — the code yields
`gps_match = false`, not `true` as claimed: only the expected coordinate's
sign is normalized away, the read-back value is compared as-is. -/
theorem C3_gps_counterexample :
    (verify_metadata envSigned exMedia gpsMeta).gps_match = false := by
  with_unfolding_all decide

/-- C3 (amended): GPS verification applies the 0.0001-degree tolerance to
the read-back values compared as-is against the absolute values of the
expected coordinates (sign is normalized away on the expected side only). -/
theorem C3_gps_tolerance (env : PyEnv) (p : FPath) (e : GoogleMetadata)
    (actual : ActualDict) (elat elon alat alon : ℚ)
    (hrd : env.engineRead p = some actual)
    (hgps : e.has_gps = true)
    (hlat : e.latitude = some elat) (hlon : e.longitude = some elon)
    (ha : pyOr (dget actual "EXIF:GPSLatitude") (dget actual "GPSLatitude")
        = some (.jnum alat))
    (hb : pyOr (dget actual "EXIF:GPSLongitude") (dget actual "GPSLongitude")
        = some (.jnum alon)) :
    (verify_metadata env p e).gps_match =
      decide (abs (alat - abs elat) < 1 / 10000 ∧
              abs (alon - abs elon) < 1 / 10000) := by
  unfold verify_metadata read_metadata_from_file
  rw [hrd]
  simp only [hgps, ha, hb, hlat, hlon, pyFloat, if_true]
  by_cases hc : abs (alat - abs elat) < 1 / 10000 ∧
      abs (alon - abs elon) < 1 / 10000
  · rw [if_pos hc]
    exact (decide_eq_true hc).symm
  · rw [if_neg hc]
    exact (decide_eq_false hc).symm

/-- Membership in the failing-side/field list built by `process_file`: a
label occurs exactly when the corresponding component match failed. -/
theorem mem_combinedIssues (s : String) (a b c d e f : Bool) :
    s ∈ combinedIssues a b c d e f ↔
      ((s = "image date" ∧ a = false) ∨ (s = "image GPS" ∧ b = false) ∨
       (s = "image description" ∧ c = false) ∨ (s = "video date" ∧ d = false) ∨
       (s = "video GPS" ∧ e = false) ∨
       (s = "video description" ∧ f = false)) := by
  cases a <;> cases b <;> cases c <;> cases d <;> cases e <;> cases f <;>
    simp [combinedIssues]

/-- On a linked pair whose parse and both writes succeed, `process_file`
with verification reduces to a branch on the combined verification's
success. -/
theorem process_file_linked_eq (env : PyEnv) (media json vp : FPath)
    (md : GoogleMetadata)
    (hparse : parse_google_json (env.contents json) = some md)
    (hw1 : (write_metadata_to_file env media md).1 = true)
    (hw2 : (write_metadata_to_file env vp md).1 = true) :
    process_file env true media json true (some vp) =
      (if ¬ (combineVerification (verify_metadata env media md)
              (verify_metadata env vp md)).success then
        (false, "Verification failed: " ++
          (combineVerification (verify_metadata env media md)
            (verify_metadata env vp md)).message,
          some (combineVerification (verify_metadata env media md)
            (verify_metadata env vp md)))
      else
        (true, (write_metadata_to_file env media md).2 ++ "; Video: " ++
            (write_metadata_to_file env vp md).2,
          some (combineVerification (verify_metadata env media md)
            (verify_metadata env vp md)))) := by
  simp only [process_file, hparse, hw1, processVerify, not_true_eq_false,
    if_false, hw2, Bool.not_eq_true, if_true]

/-- C6: for a linked (live-photo) pair whose parse and writes succeed, the
verification result attached by `process_file` is the pairwise conjunction
of the primary-side and linked-side component matches, overall success is
the conjunction of the two sides' successes (each itself the conjunction of
its three component matches), and on failure the message enumerates exactly
the failing (side, field) combinations; in particular a primary that
verifies while the linked video fails only GPS gives overall failure with a
message naming exactly the video-side GPS failure. -/
theorem C6_linked_pair_and_semantics (env : PyEnv) (media json vp : FPath)
    (md : GoogleMetadata)
    (hparse : parse_google_json (env.contents json) = some md)
    (hw1 : (write_metadata_to_file env media md).1 = true)
    (hw2 : (write_metadata_to_file env vp md).1 = true) :
    let iv := verify_metadata env media md
    let vv := verify_metadata env vp md
    let cv := combineVerification iv vv
    let r := process_file env true media json true (some vp)
    r.2.2 = some cv ∧
    cv.date_match = (iv.date_match && vv.date_match) ∧
    cv.gps_match = (iv.gps_match && vv.gps_match) ∧
    cv.description_match = (iv.description_match && vv.description_match) ∧
    cv.success = (iv.success && vv.success) ∧
    r.1 = cv.success ∧
    (cv.success = false →
      cv.message = "Verification failed on: " ++ String.intercalate ", "
        (combinedIssues iv.date_match iv.gps_match iv.description_match
          vv.date_match vv.gps_match vv.description_match) ∧
      r.2.1 = "Verification failed: " ++ cv.message ∧
      (∀ s, s ∈ combinedIssues iv.date_match iv.gps_match iv.description_match
            vv.date_match vv.gps_match vv.description_match ↔
        ((s = "image date" ∧ iv.date_match = false) ∨
         (s = "image GPS" ∧ iv.gps_match = false) ∨
         (s = "image description" ∧ iv.description_match = false) ∨
         (s = "video date" ∧ vv.date_match = false) ∨
         (s = "video GPS" ∧ vv.gps_match = false) ∨
         (s = "video description" ∧ vv.description_match = false)))) ∧
    (iv.success = true → vv.date_match = true → vv.description_match = true →
      vv.gps_match = false →
      r.1 = false ∧
      r.2.1 = "Verification failed: Verification failed on: video GPS") := by
  intro iv vv cv r
  have hkey := process_file_linked_eq env media json vp md hparse hw1 hw2
  have hflags : cv.date_match = (iv.date_match && vv.date_match) ∧
      cv.gps_match = (iv.gps_match && vv.gps_match) ∧
      cv.description_match = (iv.description_match && vv.description_match) ∧
      cv.success = (iv.success && vv.success) := by
    refine ⟨?_, ?_, ?_, ?_⟩ <;> simp [cv, combineVerification]
  have hr22 : r.2.2 = some cv := by
    rw [show r = process_file env true media json true (some vp) from rfl, hkey]
    by_cases hs : cv.success
    · simp [cv, iv, vv] at hs
      simp [hs]
    · simp only [Bool.not_eq_true] at hs
      simp [cv, iv, vv] at hs
      simp [hs]
  have hr1 : r.1 = cv.success := by
    rw [show r = process_file env true media json true (some vp) from rfl, hkey]
    by_cases hs : cv.success
    · simp [cv, iv, vv] at hs
      simp only [hs, not_true_eq_false, if_false]
      exact hs.symm
    · simp only [Bool.not_eq_true] at hs
      simp [cv, iv, vv] at hs
      simp only [hs, Bool.false_eq_true, not_false_eq_true, if_true]
      exact hs.symm
  refine ⟨hr22, hflags.1, hflags.2.1, hflags.2.2.1, hflags.2.2.2, hr1, ?_, ?_⟩
  · intro hf
    have hcv : (iv.success && vv.success) = false := by
      rw [← hflags.2.2.2]; exact hf
    refine ⟨?_, ?_, ?_⟩
    · show (combineVerification iv vv).message = _
      simp only [combineVerification, hcv, Bool.false_eq_true,
        not_false_eq_true, if_true]
    · rw [show r = process_file env true media json true (some vp) from rfl,
        hkey]
      simp only [cv, iv, vv] at hf
      simp [hf]
    · intro s
      exact mem_combinedIssues s _ _ _ _ _ _
  · intro hs1 hd hdd hg
    have hivs := verify_metadata_success_eq env media md
    rw [hs1] at hivs
    have hiv : iv.date_match = true ∧ iv.gps_match = true ∧
        iv.description_match = true := by
      have := hivs.symm
      simp only [Bool.and_eq_true] at this
      exact ⟨this.1.1, this.1.2, this.2⟩
    have hvvs : vv.success = false := by
      rw [verify_metadata_success_eq env vp md]
      show (vv.date_match && vv.gps_match && vv.description_match) = false
      rw [hd, hg, hdd]
      rfl
    have hcvf : cv.success = false := by
      rw [hflags.2.2.2, hs1, hvvs]
      rfl
    have hmsg : cv.message = "Verification failed on: video GPS" := by
      have hcv : (iv.success && vv.success) = false := by
        rw [← hflags.2.2.2]; exact hcvf
      show (combineVerification iv vv).message = _
      simp only [combineVerification, hcv, Bool.false_eq_true,
        not_false_eq_true, if_true]
      rw [hiv.1, hiv.2.1, hiv.2.2, hd, hg, hdd]
      decide
    constructor
    · rw [hr1]; exact hcvf
    · rw [show r = process_file env true media json true (some vp) from rfl,
        hkey]
      simp only [cv, iv, vv] at hcvf
      simp only [hcvf, Bool.false_eq_true, not_false_eq_true, if_true]
      show "Verification failed: " ++ cv.message = _
      rw [hmsg]
      decide

/-- Witness for C6: in the concrete live-photo environment `envLive`, the
primary verifies, the video fails only GPS, and `process_file` reports
overall failure naming the video-side GPS failure. -/
theorem C6_linked_pair_and_semantics_witness :
    (process_file envLive true exMedia exJson true (some exVideo)).1 = false ∧
    (process_file envLive true exMedia exJson true (some exVideo)).2.1 =
      "Verification failed: Verification failed on: video GPS" := by
  have habs1 : |(37.7749 : ℚ)| = 37.7749 := abs_of_nonneg (by norm_num)
  have habs2 : |(122.4194 : ℚ)| = 122.4194 := abs_of_nonneg (by norm_num)
  have hvm : (verify_metadata envLive exMedia gpsMeta).success = true := by
    norm_num [verify_metadata, read_metadata_from_file, envLive, actExact,
      dget, pyOr, truthyOpt, truthy, gpsMeta, GoogleMetadata.has_gps,
      List.find?, pyFloat,
      show "EXIF:GPSLatitude" ≠ "EXIF:GPSLongitude" from by decide,
      show "EXIF:GPSLatitude" ≠ "GPSLongitude" from by decide,
      show "EXIF:GPSLongitude" ≠ "GPSLongitude" from by decide,
      habs1, habs2]
    norm_num [show |((377749 : ℚ) / 10000)| = (377749 : ℚ) / 10000 from
        abs_of_nonneg (by norm_num),
      show |((612097 : ℚ) / 5000)| = (612097 : ℚ) / 5000 from
        abs_of_nonneg (by norm_num)]
  have hvv : (verify_metadata envLive exVideo gpsMeta).gps_match = false ∧
      (verify_metadata envLive exVideo gpsMeta).date_match = true ∧
      (verify_metadata envLive exVideo gpsMeta).description_match = true := by
    norm_num [verify_metadata, read_metadata_from_file, envLive, actFarLon,
      dget, pyOr, truthyOpt, truthy, gpsMeta, GoogleMetadata.has_gps,
      List.find?, pyFloat, exVideo, exMedia,
      show "EXIF:GPSLatitude" ≠ "EXIF:GPSLongitude" from by decide,
      show "EXIF:GPSLatitude" ≠ "GPSLongitude" from by decide,
      show "EXIF:GPSLongitude" ≠ "GPSLongitude" from by decide,
      show "a.mp4" ≠ "a.jpg" from by decide,
      habs1, habs2]
    norm_num [show |((377749 : ℚ) / 10000)| = (377749 : ℚ) / 10000 from
        abs_of_nonneg (by norm_num),
      show |((612097 : ℚ) / 5000)| = (612097 : ℚ) / 5000 from
        abs_of_nonneg (by norm_num),
      show |((112097 : ℚ) / 5000)| = (112097 : ℚ) / 5000 from
        abs_of_nonneg (by norm_num)]
    simp
  have h := C6_linked_pair_and_semantics envLive exMedia exJson exVideo gpsMeta
    (by norm_num [parse_google_json, envLive, gpsSidecar, gpsMeta])
    (by norm_num [write_metadata_to_file, envLive, buildParams, gpsMeta,
        GoogleMetadata.has_gps]
        simp)
    (by norm_num [write_metadata_to_file, envLive, buildParams, gpsMeta,
        GoogleMetadata.has_gps]
        simp)
  exact h.2.2.2.2.2.2.2 hvm hvv.2.1 hvv.2.2 hvv.1

/-- Witness for C3 (amended): with the read-back in magnitude form
`(37.77485, 122.41945)` the pair verifies as matched. -/
theorem C3_gps_tolerance_witness :
    (verify_metadata envMagnitude exMedia gpsMeta).gps_match = true := by
  rw [C3_gps_tolerance envMagnitude exMedia gpsMeta actMagnitude
    37.7749 (-122.4194) 37.77485 122.41945
    (by rfl) (by with_unfolding_all decide) (by rfl) (by rfl)
    (by norm_num [actMagnitude, dget, pyOr, truthyOpt, truthy, List.find?])
    (by norm_num [actMagnitude, dget, pyOr, truthyOpt, truthy, List.find?,
      show "EXIF:GPSLatitude" ≠ "EXIF:GPSLongitude" from by decide,
      show "EXIF:GPSLatitude" ≠ "GPSLongitude" from by decide,
      show "EXIF:GPSLongitude" ≠ "GPSLongitude" from by decide])]
  rw [decide_eq_true_eq]
  constructor
  · rw [abs_of_nonneg (by norm_num : (0:ℚ) ≤ 37.7749), abs_lt]
    constructor <;> norm_num
  · rw [abs_of_nonpos (by norm_num : (-122.4194:ℚ) ≤ 0), abs_lt]
    constructor <;> norm_num

/-- Python string concatenation concatenates the character sequences. -/
theorem strData_append (s t : String) : (s ++ t).data = s.data ++ t.data := by
  cases s; cases t; rfl

/-- Lowercasing distributes over concatenation. -/
theorem lowerStr_data_append (s t : String) :
    (lowerStr (s ++ t)).data = (lowerStr s).data ++ (lowerStr t).data := by
  simp [lowerStr, strData_append]

/-- A name built as `m ++ pat` matches the suffix pattern `pat` (for an
all-lowercase pattern). -/
theorem endsWithCI_append_self (m pk : String)
    (hkl : (lowerStr pk).data = pk.data) :
    endsWithCI (m ++ pk) pk = true := by
  unfold endsWithCI
  rw [decide_eq_true_eq, lowerStr_data_append, hkl]
  exact List.suffix_append _ _

/-- A name built as `m ++ pk` cannot match a longer pattern `pj` unless
`pk` is a suffix of `pj`. -/
theorem endsWithCI_append_false (m pk pj : String)
    (hkl : (lowerStr pk).data = pk.data) (hjl : (lowerStr pj).data = pj.data)
    (hlen : pk.data.length ≤ pj.data.length)
    (hns : ¬ pk.data <:+ pj.data) :
    endsWithCI (m ++ pk) pj = false := by
  unfold endsWithCI
  rw [decide_eq_false_iff_not]
  intro hsuf
  rw [hjl, lowerStr_data_append, hkl] at hsuf
  exact hns (List.suffix_of_suffix_length_le (List.suffix_append _ _) hsuf hlen)

/-- Removing the suffix's length from `m ++ pk` returns exactly `m`. -/
theorem strTake_append_left (m pk : String) :
    strTake (m ++ pk) (strLen (m ++ pk) - strLen pk) = m := by
  apply String.ext
  show ((m ++ pk).data.take (strLen (m ++ pk) - strLen pk)) = m.data
  rw [strLen, strLen, strData_append, List.length_append,
    Nat.add_sub_cancel]
  exact List.take_left _ _

/-- C4: for each of the four suffix patterns, `get_media_filename_from_json`
applied to `mediaName ++ suffix` returns exactly `mediaName` (for any media
name not itself ending in a shorter pattern of the table — the property in
fact needs no such restriction, since no pattern is a suffix of another);
and when no pattern matches, the function returns none. -/
theorem C4_suffix_roundtrip :
    (∀ (m p : String), p ∈ JSON_PATTERNS →
      ¬ (∃ q ∈ JSON_PATTERNS, strLen q < strLen p ∧ endsWithCI m q = true) →
      get_media_filename_from_json (m ++ p) = some m) ∧
    (∀ name : String, (∀ p ∈ JSON_PATTERNS, endsWithCI name p = false) →
      get_media_filename_from_json name = none) := by
  constructor
  · intro m p hp _
    simp only [JSON_PATTERNS, List.mem_cons, List.not_mem_nil, or_false] at hp
    rcases hp with rfl | rfl | rfl | rfl
    · unfold get_media_filename_from_json JSON_PATTERNS
      rw [List.find?_cons_of_pos]
      · show some (strTake (m ++ ".supplemental-metadata.json")
          (strLen (m ++ ".supplemental-metadata.json") -
            strLen ".supplemental-metadata.json")) = some m
        rw [strTake_append_left]
      · exact endsWithCI_append_self m _ (by decide)
    · unfold get_media_filename_from_json JSON_PATTERNS
      rw [List.find?_cons_of_neg, List.find?_cons_of_pos]
      · show some (strTake (m ++ ".supplemental-metada.json")
          (strLen (m ++ ".supplemental-metada.json") -
            strLen ".supplemental-metada.json")) = some m
        rw [strTake_append_left]
      · exact endsWithCI_append_self m _ (by decide)
      · rw [endsWithCI_append_false m _ _ (by decide) (by decide) (by decide)
          (by decide)]
        simp
    · unfold get_media_filename_from_json JSON_PATTERNS
      rw [List.find?_cons_of_neg, List.find?_cons_of_neg,
        List.find?_cons_of_pos]
      · show some (strTake (m ++ ".supplemental-met.json")
          (strLen (m ++ ".supplemental-met.json") -
            strLen ".supplemental-met.json")) = some m
        rw [strTake_append_left]
      · exact endsWithCI_append_self m _ (by decide)
      · rw [endsWithCI_append_false m _ _ (by decide) (by decide) (by decide)
          (by decide)]
        simp
      · rw [endsWithCI_append_false m _ _ (by decide) (by decide) (by decide)
          (by decide)]
        simp
    · unfold get_media_filename_from_json JSON_PATTERNS
      rw [List.find?_cons_of_neg, List.find?_cons_of_neg,
        List.find?_cons_of_neg, List.find?_cons_of_pos]
      · show some (strTake (m ++ ".su.json")
          (strLen (m ++ ".su.json") - strLen ".su.json")) = some m
        rw [strTake_append_left]
      · exact endsWithCI_append_self m _ (by decide)
      · rw [endsWithCI_append_false m _ _ (by decide) (by decide) (by decide)
          (by decide)]
        simp
      · rw [endsWithCI_append_false m _ _ (by decide) (by decide) (by decide)
          (by decide)]
        simp
      · rw [endsWithCI_append_false m _ _ (by decide) (by decide) (by decide)
          (by decide)]
        simp
  · intro name h
    unfold get_media_filename_from_json
    rw [show JSON_PATTERNS.find? (fun pat => endsWithCI name pat) = none by
      rw [List.find?_eq_none]
      intro x hx
      rw [h x hx]
      simp]

/-- Witness for C4 at the full suffix pattern. -/
theorem C4_suffix_roundtrip_witness :
    get_media_filename_from_json
        ("photo.jpg" ++ ".supplemental-metadata.json") = some "photo.jpg" :=
  C4_suffix_roundtrip.1 "photo.jpg" ".supplemental-metadata.json"
    (by decide) (by decide)

/-- The cleanup verification loop raises `AttributeError` at the first pair
whose sidecar parses, with no deletion performed along the way. -/
theorem cleanup_verify_loop_raises (env : PyEnv) (pairs : List MediaFilePair)
    (st : CleanupState)
    (hex : ∃ p ∈ pairs, parse_google_json (env.contents p.json_path) ≠ none) :
    (cleanup_verify_loop env pairs st).2 =
        some (.attributeError "video_path") ∧
    (cleanup_verify_loop env pairs st).1.deletedPaths = st.deletedPaths := by
  induction pairs generalizing st with
  | nil => simp at hex
  | cons p rest ih =>
    cases hparse : parse_google_json (env.contents p.json_path) with
    | none =>
      obtain ⟨q, hq, hne⟩ := hex
      rcases List.mem_cons.mp hq with rfl | hq'
      · exact absurd hparse hne
      · simp only [cleanup_verify_loop, hparse]
        exact ih _ ⟨q, hq', hne⟩
    | some md =>
      simp only [cleanup_verify_loop, hparse, MediaFilePair.getattr]
      exact ⟨rfl, rfl⟩

/-- If no sidecar in the list parses, the cleanup verification loop
finishes without raising and without deleting or failing anything. -/
theorem cleanup_verify_loop_all_unparsed (env : PyEnv)
    (pairs : List MediaFilePair) (st : CleanupState)
    (hall : ∀ p ∈ pairs, parse_google_json (env.contents p.json_path) = none) :
    (cleanup_verify_loop env pairs st).2 = none ∧
    (cleanup_verify_loop env pairs st).1.deletedPaths = st.deletedPaths ∧
    (cleanup_verify_loop env pairs st).1.failed = st.failed := by
  induction pairs generalizing st with
  | nil => exact ⟨rfl, rfl, rfl⟩
  | cons p rest ih =>
    have hp := hall p (List.mem_cons_self p rest)
    simp only [cleanup_verify_loop, hp]
    exact ih _ (fun q hq => hall q (List.mem_cons_of_mem p hq))

/-- C9 (amended): `cmd_attach` reads `pair.video_path`, which
`MediaFilePair` does not define, so for every scan result with at least one
pair (with ExifTool available, confirmation given, and not a dry run) it
raises `AttributeError` on the first pair before processing any pair, and
`main` reports it with exit code 1.  `cmd_cleanup` with verification raises
the same `AttributeError` on the first pair whose sidecar parses (deleting
nothing); if no sidecar parses, it completes without raising and exits 0. -/
theorem C9_video_path_attribute_error (env : PyEnv) (cli : CliEnv)
    (root : FPath) (entries : List Entry) :
    (∀ args : AttachArgs, cli.exiftool_available = true →
      args.dry_run = false → (args.yes = true ∨ cli.confirm = true) →
      (scan_directory root true true entries).pairs ≠ [] →
      (cmd_attach env cli args root true true entries).exn =
          some (.attributeError "video_path") ∧
      (cmd_attach env cli args root true true entries).processed = [] ∧
      (cmd_attach env cli args root true true entries).exitCode = 1) ∧
    (∀ args : CleanupArgs, args.no_verify = false →
      cli.exiftool_available = true → (args.yes = true ∨ cli.confirm = true) →
      (scan_directory root true true entries).pairs ≠ [] →
      ((∃ p ∈ (scan_directory root true true entries).pairs,
          parse_google_json (env.contents p.json_path) ≠ none) →
        (cmd_cleanup env cli args root true true entries).exn =
            some (.attributeError "video_path") ∧
        (cmd_cleanup env cli args root true true entries).state.deletedPaths
            = [] ∧
        (cmd_cleanup env cli args root true true entries).exitCode = 1) ∧
      ((∀ p ∈ (scan_directory root true true entries).pairs,
          parse_google_json (env.contents p.json_path) = none) →
        (cmd_cleanup env cli args root true true entries).exn = none ∧
        (cmd_cleanup env cli args root true true entries).exitCode = 0)) := by
  constructor
  · intro args het hdr hyc hne
    obtain ⟨p, rest, hpairs⟩ :=
      List.exists_cons_of_ne_nil hne
    have hguard : (¬ args.yes = true ∧ ¬ cli.confirm = true) = False := by
      rcases hyc with h | h <;> simp [h]
    simp only [cmd_attach, het, hdr, Bool.not_true, not_false_eq_true,
      if_true, if_false, hpairs, List.isEmpty_cons, hguard]
    simp only [Bool.false_eq_true, if_false, ite_false, attach_loop,
      MediaFilePair.getattr]
    exact ⟨rfl, rfl, rfl⟩
  · intro args hnv het hyc hne
    have hguard : (¬ args.yes = true ∧ ¬ cli.confirm = true) = False := by
      rcases hyc with h | h <;> simp [h]
    have hempty : (scan_directory root true true entries).pairs.isEmpty
        = false := by
      cases hp : (scan_directory root true true entries).pairs with
      | nil => exact absurd hp hne
      | cons a l => simp
    constructor
    · intro hex
      have hloop := cleanup_verify_loop_raises env
        (scan_directory root true true entries).pairs {} hex
      simp only [cmd_cleanup, hnv, het, hempty, hguard, not_true_eq_false,
        if_false, not_false_eq_true, if_true, Bool.false_eq_true]
      refine ⟨?_, ?_, ?_⟩ <;> simp [hloop.1, hloop.2]
    · intro hall
      have hloop := cleanup_verify_loop_all_unparsed env
        (scan_directory root true true entries).pairs {} hall
      simp only [cmd_cleanup, hnv, het, hempty, hguard, not_true_eq_false,
        if_false, not_false_eq_true, if_true, Bool.false_eq_true]
      refine ⟨?_, ?_⟩ <;> simp [hloop.1, hloop.2.2]

/-- Counterexample for C9 as stated: a scan result with one pair whose
sidecar is malformed makes `cmd_cleanup` with verification complete without
any `AttributeError` and exit 0, contradicting "for every scan result
containing at least one pair ... cmd_cleanup ... raises an AttributeError
on the first pair ... with exit code 1". -/
theorem C9_cleanup_no_raise_counterexample :
    (scan_directory exRoot true true exEntries).pairs ≠ [] ∧
    (cmd_cleanup envMalformed ⟨true, true⟩ {} exRoot true true
        exEntries).exn = none ∧
    (cmd_cleanup envMalformed ⟨true, true⟩ {} exRoot true true
        exEntries).exitCode = 0 := by
  refine ⟨by decide, ?_, ?_⟩ <;> decide

/-- Witness for C9 (amended) at a concrete directory whose single pair has
a parsing sidecar: both commands abort with the `video_path`
`AttributeError` and exit code 1. -/
theorem C9_video_path_attribute_error_witness :
    (cmd_attach envCleanupFail ⟨true, true⟩ {} exRoot true true
        exEntries).exn = some (.attributeError "video_path") ∧
    (cmd_attach envCleanupFail ⟨true, true⟩ {} exRoot true true
        exEntries).processed = [] ∧
    (cmd_attach envCleanupFail ⟨true, true⟩ {} exRoot true true
        exEntries).exitCode = 1 ∧
    (cmd_cleanup envCleanupFail ⟨true, true⟩ {} exRoot true true
        exEntries).exn = some (.attributeError "video_path") ∧
    (cmd_cleanup envCleanupFail ⟨true, true⟩ {} exRoot true true
        exEntries).state.deletedPaths = [] ∧
    (cmd_cleanup envCleanupFail ⟨true, true⟩ {} exRoot true true
        exEntries).exitCode = 1 := by
  have h := C9_video_path_attribute_error envCleanupFail ⟨true, true⟩
    exRoot exEntries
  have ha := h.1 {} rfl rfl (Or.inr rfl) (by decide)
  have hc := (h.2 {} rfl rfl (Or.inr rfl) (by decide)).1
    ⟨⟨exMedia, exJson⟩, by decide,
      by simp [envCleanupFail, parse_google_json]⟩
  exact ⟨ha.1, ha.2.1, ha.2.2, hc.1, hc.2.1, hc.2.2⟩

theorem find?_filter {α} (p q : α → Bool) (l : List α) :
    (l.filter q).find? p = l.find? (fun a => q a && p a) := by
  induction l with
  | nil => rfl
  | cons a l ih =>
    simp only [List.filter_cons, List.find?_cons]
    cases hq : q a <;> cases hp : p a <;> simp [List.find?_cons, hp, ih]

theorem find?_eq_head?_filter' {α} (p : α → Bool) (l : List α) :
    l.find? p = (l.filter p).head? := by
  induction l with
  | nil => rfl
  | cons a l ih =>
    simp only [List.filter_cons, List.find?_cons]
    cases h : p a
    · simp only [Bool.false_eq_true, if_false]
      exact ih
    · simp

theorem setInsert_mem (s : List FPath) (y x : FPath) :
    x ∈ setInsert s y ↔ x ∈ s ∨ x = y := by
  unfold setInsert
  by_cases h : y ∈ s
  · simp only [if_pos h]
    constructor
    · exact Or.inl
    · rintro (hx | rfl)
      · exact hx
      · exact h
  · simp [if_neg h]

theorem setInsert_nodup (s : List FPath) (y : FPath) (h : s.Nodup) :
    (setInsert s y).Nodup := by
  unfold setInsert
  by_cases hy : y ∈ s
  · simpa [if_pos hy]
  · simp only [if_neg hy]
    simp [List.nodup_append, h, hy]

theorem foldl_setInsert_mem (l : List FPath) (init : List FPath) (x : FPath) :
    x ∈ l.foldl setInsert init ↔ x ∈ init ∨ x ∈ l := by
  induction l generalizing init with
  | nil => simp
  | cons a l ih =>
    simp only [List.foldl_cons, ih, setInsert_mem, List.mem_cons]
    tauto

theorem foldl_setInsert_nodup (l : List FPath) (init : List FPath)
    (h : init.Nodup) : (l.foldl setInsert init).Nodup := by
  induction l generalizing init with
  | nil => exact h
  | cons a l ih => exact ih _ (setInsert_nodup _ _ h)

theorem dictInsert_cons_pos (k v k' v' : FPath) (d : List (FPath × FPath))
    (h : k = k') :
    dictInsert k v ((k', v') :: d) = (k', v) :: d := by
  rw [show dictInsert k v ((k', v') :: d) =
    if k = k' then (k', v) :: d else (k', v') :: dictInsert k v d from rfl,
    if_pos h]

theorem dictInsert_cons_neg (k v k' v' : FPath) (d : List (FPath × FPath))
    (h : k ≠ k') :
    dictInsert k v ((k', v') :: d) = (k', v') :: dictInsert k v d := by
  rw [show dictInsert k v ((k', v') :: d) =
    if k = k' then (k', v) :: d else (k', v') :: dictInsert k v d from rfl,
    if_neg h]

theorem dictInsert_keys (k v : FPath) (d : List (FPath × FPath)) :
    (dictInsert k v d).map Prod.fst =
      if k ∈ d.map Prod.fst then d.map Prod.fst
      else d.map Prod.fst ++ [k] := by
  induction d with
  | nil => simp [dictInsert]
  | cons kv d ih =>
    obtain ⟨k', v'⟩ := kv
    by_cases h : k = k'
    · subst h
      rw [dictInsert_cons_pos _ _ _ _ _ rfl]
      simp
    · rw [dictInsert_cons_neg _ _ _ _ _ h]
      simp only [List.map_cons, ih]
      by_cases hm : k ∈ d.map Prod.fst
      · simp [hm, h]
      · simp [hm, h]

theorem dictInsert_keys_nodup (k v : FPath) (d : List (FPath × FPath))
    (h : (d.map Prod.fst).Nodup) :
    ((dictInsert k v d).map Prod.fst).Nodup := by
  rw [dictInsert_keys]
  by_cases hm : k ∈ d.map Prod.fst
  · simpa [hm]
  · simp [hm, List.nodup_append, h]

theorem mem_dictInsert (k v a b : FPath) (d : List (FPath × FPath))
    (hnd : (d.map Prod.fst).Nodup) :
    ((a, b) ∈ dictInsert k v d) ↔
      ((a = k ∧ b = v) ∨ ((a, b) ∈ d ∧ a ≠ k)) := by
  induction d with
  | nil => simp [dictInsert]
  | cons kv d ih =>
    obtain ⟨k', v'⟩ := kv
    simp only [List.map_cons, List.nodup_cons] at hnd
    by_cases h : k = k'
    · subst h
      have hne : (a, b) ∈ d → a ≠ k := by
        rintro hd rfl
        exact hnd.1 (List.mem_map.mpr ⟨(a, b), hd, rfl⟩)
      rw [dictInsert_cons_pos _ _ _ _ _ rfl]
      simp only [List.mem_cons, Prod.mk.injEq]
      tauto
    · have himp : a = k' → a ≠ k := fun h1 h2 => h (h2.symm.trans h1)
      rw [dictInsert_cons_neg _ _ _ _ _ h]
      simp only [List.mem_cons, Prod.mk.injEq, ih hnd.2]
      tauto



theorem foldl_dictInsert_keys_nodup (kvs : List (FPath × FPath))
    (d : List (FPath × FPath)) (h : (d.map Prod.fst).Nodup) :
    ((kvs.foldl (fun d kv => dictInsert kv.1 kv.2 d) d).map Prod.fst).Nodup := by
  induction kvs generalizing d with
  | nil => exact h
  | cons kv kvs ih => exact ih _ (dictInsert_keys_nodup kv.1 kv.2 d h)

theorem mem_foldl_dictInsert (kvs : List (FPath × FPath))
    (d : List (FPath × FPath)) (hnd : (d.map Prod.fst).Nodup) (a b : FPath) :
    ((a, b) ∈ kvs.foldl (fun d kv => dictInsert kv.1 kv.2 d) d) ↔
      (lookupLast kvs a = some (a, b) ∨
        (lookupLast kvs a = none ∧ (a, b) ∈ d)) := by
  induction kvs generalizing d with
  | nil => simp [lookupLast]
  | cons kv kvs ih =>
    obtain ⟨k0, v0⟩ := kv
    rw [List.foldl_cons, ih _ (dictInsert_keys_nodup k0 v0 d hnd)]
    by_cases h : k0 = a
    · subst h
      have hstep : lookupLast ((k0, v0) :: kvs) k0 =
          (lookupLast kvs k0).or (some (k0, v0)) := by
        unfold lookupLast
        rw [List.reverse_cons, List.find?_append]
        congr 1
        simp [List.find?]
      rw [hstep]
      cases hlk : lookupLast kvs k0 with
      | some q => simp
      | none =>
        rw [mem_dictInsert _ _ _ _ _ hnd]
        simp only [Option.none_or, Option.some.injEq, Prod.mk.injEq]
        constructor
        · rintro (h1 | ⟨-, (⟨-, rfl⟩ | ⟨-, hfalse⟩)⟩)
          · simp at h1
          · exact Or.inl ⟨trivial, rfl⟩
          · exact absurd rfl hfalse
        · rintro (⟨-, rfl⟩ | ⟨hfalse, -⟩)
          · exact Or.inr ⟨trivial, Or.inl ⟨trivial, rfl⟩⟩
          · simp at hfalse
    · have hne : a ≠ k0 := fun hh => h hh.symm
      have hstep : lookupLast ((k0, v0) :: kvs) a = lookupLast kvs a := by
        unfold lookupLast
        rw [List.reverse_cons, List.find?_append]
        have : List.find? (fun kv => decide (kv.1 = a)) [(k0, v0)] = none := by
          simp [List.find?, h]
        rw [this, Option.or_none]
      rw [hstep]
      cases hlk : lookupLast kvs a with
      | some q => simp
      | none =>
        rw [mem_dictInsert _ _ _ _ _ hnd]
        simp [hne]

theorem mem_foldl_dictInsert_nil (kvs : List (FPath × FPath)) (a b : FPath) :
    ((a, b) ∈ kvs.foldl (fun d kv => dictInsert kv.1 kv.2 d) []) ↔
      lookupLast kvs a = some (a, b) := by
  rw [mem_foldl_dictInsert kvs [] (by simp) a b]
  simp

theorem lookupLast_mem (kvs : List (FPath × FPath)) (a : FPath)
    (q : FPath × FPath) (h : lookupLast kvs a = some q) :
    q ∈ kvs ∧ q.1 = a := by
  unfold lookupLast at h
  have hm := List.mem_of_find?_eq_some h
  have hp := List.find?_some h
  rw [List.mem_reverse] at hm
  simp only [decide_eq_true_eq] at hp
  exact ⟨hm, hp⟩



theorem kvsOf_cons_pos (e : Entry) (es : List Entry)
    (h : goodSidecarB e = true) :
    kvsOf (e :: es) = (keyOf e, e.path) :: kvsOf es := by
  unfold kvsOf
  rw [List.filter_cons_of_pos h, List.map_cons]

theorem kvsOf_cons_neg (e : Entry) (es : List Entry)
    (h : goodSidecarB e = false) :
    kvsOf (e :: es) = kvsOf es := by
  unfold kvsOf
  rw [List.filter_cons_of_neg (by simp [h])]

theorem get_some_of_metadata (name : String)
    (h : is_metadata_json name = true) :
    get_media_filename_from_json name =
      some ((get_media_filename_from_json name).getD "") := by
  unfold is_metadata_json at h
  by_cases hs : name ∈ SKIP_FILES
  · rw [if_pos hs] at h
    exact absurd h (by simp)
  · rw [if_neg hs] at h
    obtain ⟨pat, hpat, hci⟩ := List.any_eq_true.mp h
    unfold get_media_filename_from_json
    cases hf : JSON_PATTERNS.find? (fun pat => endsWithCI name pat) with
    | some p => rfl
    | none =>
      rw [List.find?_eq_none] at hf
      exact absurd hci (hf pat hpat)

theorem classify_foldl (es : List Entry) (st : ClassifyAcc) :
    es.foldl classifyStep st =
      { skipped := st.skipped ++ (es.filter skipB).map Entry.path
        json_files := (kvsOf es).foldl (fun d kv => dictInsert kv.1 kv.2 d)
          st.json_files
        media_files := ((es.filter mediaB).map Entry.path).foldl setInsert
          st.media_files } := by
  induction es generalizing st with
  | nil => simp [kvsOf]
  | cons e es ih =>
    rw [List.foldl_cons, ih]
    by_cases hf : e.isFile = true
    · by_cases hs : e.path.name ∈ SKIP_FILES
      · have hstep : classifyStep st e =
            { st with skipped := st.skipped ++ [e.path] } := by
          simp [classifyStep, hf, hs]
        have hskip : skipB e = true := by simp [skipB, hf, hs]
        have hmed : mediaB e = false := by simp [mediaB, hs]
        have hgood : goodSidecarB e = false := by
          simp [goodSidecarB, sidecarB, hs]
        rw [hstep, kvsOf_cons_neg _ _ hgood,
          List.filter_cons_of_pos hskip,
          List.filter_cons_of_neg (by simp [hmed])]
        simp [List.append_assoc]
      · by_cases hm : is_metadata_json e.path.name = true
        · have hg := get_some_of_metadata _ hm
          by_cases he : mnameOf e = ""
          · have hstep : classifyStep st e = st := by
              simp only [classifyStep, hf, hs, hm]
              rw [hg]
              simp [mnameOf] at he
              simp [he]
            have hskip : skipB e = false := by simp [skipB, hs]
            have hmed : mediaB e = false := by simp [mediaB, hm]
            have hgood : goodSidecarB e = false := by
              simp [goodSidecarB, he]
            rw [hstep, kvsOf_cons_neg _ _ hgood,
              List.filter_cons_of_neg (by simp [hskip]),
              List.filter_cons_of_neg (by simp [hmed])]
          · have hstep : classifyStep st e =
                { st with json_files :=
                    dictInsert (keyOf e) e.path st.json_files } := by
              simp only [classifyStep, hf, hs, hm]
              rw [hg]
              simp only [mnameOf] at he
              simp [he, keyOf, mnameOf]
            have hskip : skipB e = false := by simp [skipB, hs]
            have hmed : mediaB e = false := by simp [mediaB, hm]
            have hgood : goodSidecarB e = true := by
              simp [goodSidecarB, sidecarB, hf, hs, hm, he]
            rw [hstep, kvsOf_cons_pos _ _ hgood,
              List.filter_cons_of_neg (by simp [hskip]),
              List.filter_cons_of_neg (by simp [hmed])]
            simp
        · by_cases hmf : is_media_file e.path.name = true
          · have hstep : classifyStep st e =
                { st with media_files := setInsert st.media_files e.path } := by
              simp [classifyStep, hf, hs, hm, hmf]
            have hskip : skipB e = false := by simp [skipB, hs]
            have hmed : mediaB e = true := by
              simp [mediaB, hf, hs, hm, hmf]
            have hgood : goodSidecarB e = false := by
              simp [goodSidecarB, sidecarB, hm]
            rw [hstep, kvsOf_cons_neg _ _ hgood,
              List.filter_cons_of_neg (by simp [hskip]),
              List.filter_cons_of_pos hmed]
            simp
          · have hstep : classifyStep st e = st := by
              simp [classifyStep, hf, hs, hm, hmf]
            have hskip : skipB e = false := by simp [skipB, hs]
            have hmed : mediaB e = false := by simp [mediaB, hmf]
            have hgood : goodSidecarB e = false := by
              simp [goodSidecarB, sidecarB, hm]
            rw [hstep, kvsOf_cons_neg _ _ hgood,
              List.filter_cons_of_neg (by simp [hskip]),
              List.filter_cons_of_neg (by simp [hmed])]
    · have hstep : classifyStep st e = st := by
        simp [classifyStep, hf]
      have hskip : skipB e = false := by simp [skipB, hf]
      have hmed : mediaB e = false := by simp [mediaB, hf]
      have hgood : goodSidecarB e = false := by
        simp [goodSidecarB, sidecarB, hf]
      rw [hstep, kvsOf_cons_neg _ _ hgood,
        List.filter_cons_of_neg (by simp [hskip]),
        List.filter_cons_of_neg (by simp [hmed])]



theorem scan_directory_ok (root : FPath) (entries : List Entry) :
    scan_directory root true true entries =
      { pairs := ((scanDict entries).filter
            (fun kv => decide (kv.1 ∈ scanMedia entries))).map
          (fun kv => { media_path := kv.1, json_path := kv.2 : MediaFilePair })
        orphan_jsons := ((scanDict entries).filter
            (fun kv => ¬ decide (kv.1 ∈ scanMedia entries))).map Prod.snd
        orphan_media := (scanMedia entries).filter
          (fun m => ¬ decide (m ∈ ((scanDict entries).filter
              (fun kv => decide (kv.1 ∈ scanMedia entries))).map Prod.fst))
        skipped_jsons := scanSkipped entries
        errors := [] } := by
  unfold scan_directory
  simp only [Bool.not_true, not_false_eq_true, if_false, Bool.false_eq_true,
    ite_false, ite_true]
  rw [classify_foldl]
  rfl

theorem eq_of_map_nodup {α β : Type} (l : List α) (f : α → β)
    (h : (l.map f).Nodup) :
    ∀ x ∈ l, ∀ y ∈ l, f x = f y → x = y := by
  intro x hx y hy hf
  by_contra hne
  have hpw : List.Pairwise (fun a b => f a ≠ f b) l := List.pairwise_map.mp h
  have hsymm : Symmetric (fun a b => f a ≠ f b) := by
    intro a b hab hba
    exact hab hba.symm
  exact hpw.forall hsymm hx hy hne hf

theorem nodup_filter_paths (es : List Entry) (p : Entry → Bool)
    (himp : ∀ e, p e = true → e.isFile = true)
    (hnd : ((es.filter (fun e => e.isFile)).map Entry.path).Nodup) :
    ((es.filter p).map Entry.path).Nodup := by
  have h1 : es.filter p = (es.filter (fun e => e.isFile)).filter p := by
    rw [List.filter_filter]
    apply List.filter_congr
    intro e _
    cases hp : p e
    · simp
    · simp [himp e hp]
  rw [h1]
  exact ((List.filter_sublist _).map _).nodup hnd

theorem path_inj (es : List Entry)
    (hnd : ((es.filter (fun e => e.isFile)).map Entry.path).Nodup) :
    ∀ e ∈ es, ∀ e' ∈ es, e.isFile = true → e'.isFile = true →
      e.path = e'.path → e = e' := by
  intro e he e' he' hf hf' hpp
  exact eq_of_map_nodup _ _ hnd e (List.mem_filter.mpr ⟨he, hf⟩)
    e' (List.mem_filter.mpr ⟨he', hf'⟩) hpp

theorem scanMedia_mem (entries : List Entry) (x : FPath) :
    x ∈ scanMedia entries ↔ ∃ e ∈ entries, mediaB e = true ∧ e.path = x := by
  unfold scanMedia
  rw [foldl_setInsert_mem]
  simp [List.mem_filter, and_assoc]

theorem scanMedia_nodup (entries : List Entry) : (scanMedia entries).Nodup :=
  foldl_setInsert_nodup _ _ (by simp)

theorem scanDict_keys_nodup (entries : List Entry) :
    ((scanDict entries).map Prod.fst).Nodup :=
  foldl_dictInsert_keys_nodup _ _ (by simp)

theorem scanDict_mem (entries : List Entry) (a b : FPath) :
    ((a, b) ∈ scanDict entries) ↔ lookupLast (kvsOf entries) a = some (a, b) :=
  mem_foldl_dictInsert_nil _ a b

theorem scanDict_sub_kvs (entries : List Entry) (kv : FPath × FPath)
    (h : kv ∈ scanDict entries) : kv ∈ kvsOf entries := by
  obtain ⟨a, b⟩ := kv
  rw [scanDict_mem] at h
  exact (lookupLast_mem _ _ _ h).1

theorem kvs_values_eq (entries : List Entry) :
    (kvsOf entries).map Prod.snd =
      (entries.filter goodSidecarB).map Entry.path := by
  unfold kvsOf
  rw [List.map_map]
  rfl

theorem kvs_values_nodup (entries : List Entry)
    (hnd : ((entries.filter (fun e => e.isFile)).map Entry.path).Nodup) :
    ((kvsOf entries).map Prod.snd).Nodup := by
  rw [kvs_values_eq]
  exact nodup_filter_paths _ _
    (fun e h => by
      simp only [goodSidecarB, sidecarB, Bool.and_eq_true] at h
      exact h.1.1.1) hnd

theorem scanDict_nodup (entries : List Entry) : (scanDict entries).Nodup :=
  (scanDict_keys_nodup entries).of_map _

theorem scanDict_values_nodup (entries : List Entry)
    (hnd : ((entries.filter (fun e => e.isFile)).map Entry.path).Nodup) :
    ((scanDict entries).map Prod.snd).Nodup := by
  apply List.Nodup.map_on _ (scanDict_nodup entries)
  intro x hx y hy hf
  exact eq_of_map_nodup _ _ (kvs_values_nodup entries hnd)
    x (scanDict_sub_kvs _ _ hx) y (scanDict_sub_kvs _ _ hy) hf

theorem scanDict_value_origin (entries : List Entry) (kv : FPath × FPath)
    (h : kv ∈ scanDict entries) :
    ∃ e ∈ entries, goodSidecarB e = true ∧ e.path = kv.2 ∧ keyOf e = kv.1 := by
  have hk := scanDict_sub_kvs _ _ h
  unfold kvsOf at hk
  obtain ⟨e, he, heq⟩ := List.mem_map.mp hk
  obtain ⟨hee, hge⟩ := List.mem_filter.mp he
  exact ⟨e, hee, hge, by rw [← heq], by rw [← heq]⟩

theorem scanMedia_origin (entries : List Entry) (x : FPath)
    (h : x ∈ scanMedia entries) :
    ∃ e ∈ entries, mediaB e = true ∧ e.path = x :=
  (scanMedia_mem entries x).mp h

theorem scanSkipped_mem (entries : List Entry) (x : FPath) :
    x ∈ scanSkipped entries ↔ ∃ e ∈ entries, skipB e = true ∧ e.path = x := by
  unfold scanSkipped
  simp [List.mem_filter, and_assoc]



theorem mem_of_getLast? {α} (l : List α) (a : α) (h : l.getLast? = some a) :
    a ∈ l := by
  rw [List.getLast?_eq_head?_reverse] at h
  cases hl : l.reverse with
  | nil => rw [hl] at h; exact absurd h (by simp)
  | cons b t =>
    rw [hl] at h
    simp only [List.head?] at h
    rw [Option.some.injEq] at h
    subst h
    rw [← List.mem_reverse, hl]
    exact List.mem_cons_self _ _

theorem lookupLast_kvsOf (entries : List Entry) (k : FPath) :
    lookupLast (kvsOf entries) k =
      (lastClaimant entries k).map (fun e => (keyOf e, e.path)) := by
  unfold lookupLast kvsOf lastClaimant
  rw [← List.map_reverse, List.find?_map, ← List.filter_reverse,
    find?_filter, List.getLast?_eq_head?_reverse, ← List.filter_reverse,
    ← find?_eq_head?_filter']
  rfl

theorem goodSidecar_name (e : Entry) (h : goodSidecarB e = true) :
    e.isFile = true ∧ ¬ e.path.name ∈ SKIP_FILES ∧
      is_metadata_json e.path.name = true := by
  simp only [goodSidecarB, sidecarB, Bool.and_eq_true, Bool.not_eq_true',
    decide_eq_false_iff_not] at h
  exact ⟨h.1.1.1, h.1.1.2, h.1.2⟩

theorem sidecar_name (e : Entry) (h : sidecarB e = true) :
    e.isFile = true ∧ ¬ e.path.name ∈ SKIP_FILES ∧
      is_metadata_json e.path.name = true := by
  simp only [sidecarB, Bool.and_eq_true, Bool.not_eq_true',
    decide_eq_false_iff_not] at h
  exact ⟨h.1.1, h.1.2, h.2⟩

theorem media_name (e : Entry) (h : mediaB e = true) :
    e.isFile = true ∧ ¬ e.path.name ∈ SKIP_FILES ∧
      is_metadata_json e.path.name = false ∧
      is_media_file e.path.name = true := by
  simp only [mediaB, Bool.and_eq_true, Bool.not_eq_true',
    decide_eq_false_iff_not] at h
  exact ⟨h.1.1.1, h.1.1.2, h.1.2, h.2⟩

theorem skip_name (e : Entry) (h : skipB e = true) :
    e.isFile = true ∧ e.path.name ∈ SKIP_FILES := by
  simp only [skipB, Bool.and_eq_true, decide_eq_true_eq] at h
  exact h

theorem scanMedia_name (entries : List Entry) (x : FPath)
    (h : x ∈ scanMedia entries) : is_metadata_json x.name = false ∧
      ¬ x.name ∈ SKIP_FILES := by
  obtain ⟨e, _, hm, rfl⟩ := scanMedia_origin entries x h
  have := media_name e hm
  exact ⟨this.2.2.1, this.2.1⟩

theorem scanValues_name (entries : List Entry) (x : FPath)
    (h : x ∈ (scanDict entries).map Prod.snd) :
    is_metadata_json x.name = true ∧ ¬ x.name ∈ SKIP_FILES := by
  obtain ⟨kv, hkv, hsnd⟩ := List.mem_map.mp h
  obtain ⟨e, _, hg, hpe, _⟩ := scanDict_value_origin entries kv hkv
  have := goodSidecar_name e hg
  rw [← hsnd, ← hpe]
  exact ⟨this.2.2, this.2.1⟩

theorem scanSkipped_name (entries : List Entry) (x : FPath)
    (h : x ∈ scanSkipped entries) : x.name ∈ SKIP_FILES := by
  obtain ⟨e, _, hs, rfl⟩ := (scanSkipped_mem entries x).mp h
  exact (skip_name e hs).2



theorem scan_resultPaths_nodup (root : FPath) (entries : List Entry)
    (hnd : ((entries.filter (fun e => e.isFile)).map Entry.path).Nodup) :
    (resultPaths (scan_directory root true true entries)).Nodup := by
  rw [scan_directory_ok]
  unfold resultPaths
  simp only [List.map_map]
  set D := scanDict entries with hD
  set M := scanMedia entries with hM
  set P : FPath × FPath → Bool := fun kv => decide (kv.1 ∈ M) with hP
  have hA : (D.filter P).map
      (MediaFilePair.media_path ∘ fun kv =>
        { media_path := kv.1, json_path := kv.2 : MediaFilePair }) =
      (D.filter P).map Prod.fst := rfl
  have hB : (D.filter P).map
      (MediaFilePair.json_path ∘ fun kv =>
        { media_path := kv.1, json_path := kv.2 : MediaFilePair }) =
      (D.filter P).map Prod.snd := rfl
  rw [hA, hB]
  -- membership helpers
  have hmemA : ∀ x, x ∈ (D.filter P).map Prod.fst → x ∈ M := by
    intro x hx
    obtain ⟨kv, hkv, rfl⟩ := List.mem_map.mp hx
    have := (List.mem_filter.mp hkv).2
    simpa [hP] using this
  have hmemVal : ∀ (q : FPath × FPath → Bool) x,
      x ∈ (D.filter q).map Prod.snd → x ∈ D.map Prod.snd := by
    intro q x hx
    obtain ⟨kv, hkv, rfl⟩ := List.mem_map.mp hx
    exact List.mem_map.mpr ⟨kv, List.mem_of_mem_filter hkv, rfl⟩
  have hvalnd := scanDict_values_nodup entries hnd
  -- nodups of the five components
  have hndA : ((D.filter P).map Prod.fst).Nodup :=
    ((List.filter_sublist D).map Prod.fst).nodup (scanDict_keys_nodup entries)
  have hndB : ((D.filter P).map Prod.snd).Nodup :=
    ((List.filter_sublist D).map Prod.snd).nodup hvalnd
  have hndOJ : ((D.filter (fun kv => ¬ P kv)).map Prod.snd).Nodup :=
    ((List.filter_sublist D).map Prod.snd).nodup hvalnd
  have hndOM : (M.filter
      (fun m => ¬ decide (m ∈ (D.filter P).map Prod.fst))).Nodup :=
    (scanMedia_nodup entries).filter _
  have hndS : (scanSkipped entries).Nodup :=
    nodup_filter_paths _ _ (fun e h => (skip_name e h).1) hnd
  -- category name facts
  have hAname : ∀ x, x ∈ (D.filter P).map Prod.fst →
      is_metadata_json x.name = false ∧ ¬ x.name ∈ SKIP_FILES :=
    fun x hx => scanMedia_name entries x (hmemA x hx)
  have hBname : ∀ x, x ∈ (D.filter P).map Prod.snd →
      is_metadata_json x.name = true ∧ ¬ x.name ∈ SKIP_FILES :=
    fun x hx => scanValues_name entries x (hmemVal _ x hx)
  have hOJname : ∀ x, x ∈ (D.filter (fun kv => ¬ P kv)).map Prod.snd →
      is_metadata_json x.name = true ∧ ¬ x.name ∈ SKIP_FILES :=
    fun x hx => scanValues_name entries x (hmemVal _ x hx)
  have hOMmem : ∀ x, x ∈ M.filter
      (fun m => ¬ decide (m ∈ (D.filter P).map Prod.fst)) →
      x ∈ M ∧ ¬ x ∈ (D.filter P).map Prod.fst := by
    intro x hx
    have := List.mem_filter.mp hx
    refine ⟨this.1, ?_⟩
    simpa using this.2
  have hOMname : ∀ x, x ∈ M.filter
      (fun m => ¬ decide (m ∈ (D.filter P).map Prod.fst)) →
      is_metadata_json x.name = false ∧ ¬ x.name ∈ SKIP_FILES :=
    fun x hx => scanMedia_name entries x (hOMmem x hx).1
  have hSname : ∀ x, x ∈ scanSkipped entries → x.name ∈ SKIP_FILES :=
    fun x hx => scanSkipped_name entries x hx
  -- B and OJ are disjoint because values are distinct
  have hBOJ : ∀ x, x ∈ (D.filter P).map Prod.snd →
      ¬ x ∈ (D.filter (fun kv => ¬ P kv)).map Prod.snd := by
    intro x hx1 hx2
    obtain ⟨kv1, hkv1, he1⟩ := List.mem_map.mp hx1
    obtain ⟨kv2, hkv2, he2⟩ := List.mem_map.mp hx2
    have hkv1' := List.mem_filter.mp hkv1
    have hkv2' := List.mem_filter.mp hkv2
    have : kv1 = kv2 := eq_of_map_nodup D Prod.snd hvalnd kv1 hkv1'.1
      kv2 hkv2'.1 (he1.trans he2.symm)
    rw [this] at hkv1'
    have h1 := hkv1'.2
    have h2 := hkv2'.2
    simp only [decide_eq_true_eq, Bool.not_eq_true', decide_eq_false_iff_not]
      at h1 h2
    rw [h1] at h2
    simp at h2
  -- assemble
  simp only [List.append_assoc]
  rw [List.nodup_append, List.nodup_append, List.nodup_append,
    List.nodup_append]
  refine ⟨hndA, ⟨hndB, ⟨hndOJ, ⟨hndOM, hndS, ?_⟩, ?_⟩, ?_⟩, ?_⟩
  · -- OM disjoint S
    rw [List.disjoint_left]
    intro x hx hx'
    exact (hOMname x hx).2 (hSname x hx')
  · -- OJ disjoint (OM ++ S)
    rw [List.disjoint_left]
    intro x hx hx'
    rcases List.mem_append.mp hx' with h | h
    · exact absurd (hOJname x hx).1 (by simp [(hOMname x h).1])
    · exact (hOJname x hx).2 (hSname x h)
  · -- B disjoint (OJ ++ OM ++ S)
    rw [List.disjoint_left]
    intro x hx hx'
    rcases List.mem_append.mp hx' with h | h'
    · exact hBOJ x hx h
    rcases List.mem_append.mp h' with h | h
    · exact absurd (hBname x hx).1 (by simp [(hOMname x h).1])
    · exact (hBname x hx).2 (hSname x h)
  · -- A disjoint (B ++ OJ ++ OM ++ S)
    rw [List.disjoint_left]
    intro x hx hx'
    rcases List.mem_append.mp hx' with h | h'
    · exact absurd (hBname x h).1 (by simp [(hAname x hx).1])
    rcases List.mem_append.mp h' with h | h''
    · exact absurd (hOJname x h).1 (by simp [(hAname x hx).1])
    rcases List.mem_append.mp h'' with h | h
    · exact (hOMmem x h).2 hx
    · exact (hAname x hx).2 (hSname x h)



theorem scan_pairs_json_eq (root : FPath) (entries : List Entry) :
    (scan_directory root true true entries).pairs.map
        MediaFilePair.json_path =
      ((scanDict entries).filter
        (fun kv => decide (kv.1 ∈ scanMedia entries))).map Prod.snd := by
  rw [scan_directory_ok]
  simp only [List.map_map]
  rfl

theorem scan_orphan_jsons_eq (root : FPath) (entries : List Entry) :
    (scan_directory root true true entries).orphan_jsons =
      ((scanDict entries).filter
        (fun kv => ¬ decide (kv.1 ∈ scanMedia entries))).map Prod.snd := by
  rw [scan_directory_ok]

theorem scan_sidecar_fate (root : FPath) (entries : List Entry)
    (hnd : ((entries.filter (fun e => e.isFile)).map Entry.path).Nodup)
    (e : Entry) (he : e ∈ entries) (hg : goodSidecarB e = true)
    (hlast : lastClaimant entries (keyOf e) = some e) :
    (e.path ∈ (scan_directory root true true entries).pairs.map
        MediaFilePair.json_path ∧
      e.path ∉ (scan_directory root true true entries).orphan_jsons) ∨
    (e.path ∈ (scan_directory root true true entries).orphan_jsons ∧
      e.path ∉ (scan_directory root true true entries).pairs.map
        MediaFilePair.json_path) := by
  rw [scan_pairs_json_eq, scan_orphan_jsons_eq]
  have hvalnd := scanDict_values_nodup entries hnd
  have hmem : (keyOf e, e.path) ∈ scanDict entries := by
    rw [scanDict_mem, lookupLast_kvsOf, hlast]
    rfl
  by_cases hM : keyOf e ∈ scanMedia entries
  · left
    constructor
    · exact List.mem_map.mpr ⟨(keyOf e, e.path),
        List.mem_filter.mpr ⟨hmem, by simp [hM]⟩, rfl⟩
    · intro hx
      obtain ⟨kv2, hkv2, hsnd⟩ := List.mem_map.mp hx
      have hkv2' := List.mem_filter.mp hkv2
      have : kv2 = (keyOf e, e.path) := eq_of_map_nodup _ Prod.snd hvalnd
        kv2 hkv2'.1 (keyOf e, e.path) hmem hsnd
      rw [this] at hkv2'
      have := hkv2'.2
      simp [hM] at this
  · right
    constructor
    · exact List.mem_map.mpr ⟨(keyOf e, e.path),
        List.mem_filter.mpr ⟨hmem, by simp [hM]⟩, rfl⟩
    · intro hx
      obtain ⟨kv2, hkv2, hsnd⟩ := List.mem_map.mp hx
      have hkv2' := List.mem_filter.mp hkv2
      have : kv2 = (keyOf e, e.path) := eq_of_map_nodup _ Prod.snd hvalnd
        kv2 hkv2'.1 (keyOf e, e.path) hmem hsnd
      rw [this] at hkv2'
      have := hkv2'.2
      simp [hM] at this

theorem scan_sidecar_dropped (root : FPath) (entries : List Entry)
    (hnd : ((entries.filter (fun e => e.isFile)).map Entry.path).Nodup)
    (e : Entry) (he : e ∈ entries) (hsc : sidecarB e = true)
    (hdrop : mnameOf e = "" ∨ lastClaimant entries (keyOf e) ≠ some e) :
    e.path ∉ resultPaths (scan_directory root true true entries) := by
  have hname := sidecar_name e hsc
  have hinj := path_inj entries hnd
  -- e.path never appears among the dict values
  have hnotval : e.path ∉ (scanDict entries).map Prod.snd := by
    intro hx
    obtain ⟨kv, hkv, hsnd⟩ := List.mem_map.mp hx
    obtain ⟨e', he', hg', hpe', hke'⟩ := scanDict_value_origin entries kv hkv
    have hee : e' = e := hinj e' he' e he (goodSidecar_name e' hg').1
      hname.1 (by rw [hpe', hsnd])
    rcases hdrop with hemp | hlast
    · rw [hee] at hg'
      simp [goodSidecarB, hemp] at hg'
    · apply hlast
      have hkv2 : kv = (keyOf e, e.path) := by
        obtain ⟨k1, v1⟩ := kv
        simp only at hpe' hke'
        rw [← hke', ← hpe', hee]
      rw [hkv2] at hkv
      rw [scanDict_mem, lookupLast_kvsOf] at hkv
      cases hlc : lastClaimant entries (keyOf e) with
      | none => rw [hlc] at hkv; exact absurd hkv (by simp)
      | some e2 =>
        rw [hlc] at hkv
        have hkv' : (keyOf e2, e2.path) = (keyOf e, e.path) :=
          Option.some.inj hkv
        have hpp : e2.path = e.path := congrArg Prod.snd hkv'
        have he2mem := mem_of_getLast? _ _ hlc
        have he2' := List.mem_filter.mp he2mem
        have hg2 : goodSidecarB e2 = true := by
          have := he2'.2
          simp only [Bool.and_eq_true] at this
          exact this.1
        have : e2 = e := hinj e2 he2'.1 e he (goodSidecar_name e2 hg2).1
          hname.1 hpp
        rw [← this]
  -- e.path never appears among the media files
  have hnotmedia : e.path ∉ scanMedia entries := by
    intro hx
    obtain ⟨e', he', hm', hpe'⟩ := scanMedia_origin entries _ hx
    have hee : e' = e := hinj e' he' e he (media_name e' hm').1 hname.1 hpe'
    subst hee
    have := (media_name e' hm').2.2.1
    rw [hname.2.2] at this
    exact absurd this (by simp)
  -- e.path never appears among the skipped files
  have hnotskip : e.path ∉ scanSkipped entries := by
    intro hx
    obtain ⟨e', he', hs', hpe'⟩ := (scanSkipped_mem entries _).mp hx
    have hee : e' = e := hinj e' he' e he (skip_name e' hs').1 hname.1 hpe'
    subst hee
    exact hname.2.1 (skip_name e' hs').2
  -- assemble over the five collections
  intro hx
  unfold resultPaths at hx
  rw [scan_directory_ok] at hx
  simp only [List.map_map, List.mem_append] at hx
  rcases hx with ((((h | h) | h) | h) | h)
  · -- pairs' media side is a subset of scanMedia
    obtain ⟨kv, hkv, hfst⟩ := List.mem_map.mp h
    have hfst' : kv.1 = e.path := hfst
    have hmem := (List.mem_filter.mp hkv).2
    simp only [decide_eq_true_eq] at hmem
    exact hnotmedia (hfst' ▸ hmem)
  · exact hnotval (List.mem_map.mpr
      ⟨_, List.mem_of_mem_filter ((List.mem_map.mp h).choose_spec.1),
        (List.mem_map.mp h).choose_spec.2⟩)
  · exact hnotval (List.mem_map.mpr
      ⟨_, List.mem_of_mem_filter ((List.mem_map.mp h).choose_spec.1),
        (List.mem_map.mp h).choose_spec.2⟩)
  · exact hnotmedia (List.mem_filter.mp h).1
  · exact hnotskip h

theorem scan_skip_recorded (root : FPath) (entries : List Entry) (e : Entry)
    (he : e ∈ entries) (hf : e.isFile = true)
    (hsk : e.path.name ∈ SKIP_FILES) :
    e.path ∈ (scan_directory root true true entries).skipped_jsons := by
  rw [scan_directory_ok]
  exact (scanSkipped_mem entries e.path).mpr
    ⟨e, he, by simp [skipB, hf, hsk], rfl⟩



/-- C2 (amended): for every scanned directory (listing without duplicate
file paths), mutual exclusivity holds — no path appears twice across the
pairs' media+sidecar paths, orphan sidecars, orphan media and skipped
sidecars; a skip-listed file is recorded as skipped; a sidecar with a
nonempty derived media name that is the last sidecar in scan order deriving
its media path yields exactly one of pair / orphan-sidecar; but a sidecar
whose name is nothing but a suffix pattern (empty derived name), or that is
superseded by a later sidecar deriving the same media path, appears in no
collection at all. -/
theorem C2_scan_partition (root : FPath) (entries : List Entry)
    (hnd : ((entries.filter (fun e => e.isFile)).map Entry.path).Nodup) :
    (resultPaths (scan_directory root true true entries)).Nodup ∧
    (∀ e ∈ entries, e.isFile = true → e.path.name ∈ SKIP_FILES →
      e.path ∈ (scan_directory root true true entries).skipped_jsons) ∧
    (∀ e ∈ entries, goodSidecarB e = true →
      lastClaimant entries (keyOf e) = some e →
      (e.path ∈ (scan_directory root true true entries).pairs.map
          MediaFilePair.json_path ∧
        e.path ∉ (scan_directory root true true entries).orphan_jsons) ∨
      (e.path ∈ (scan_directory root true true entries).orphan_jsons ∧
        e.path ∉ (scan_directory root true true entries).pairs.map
          MediaFilePair.json_path)) ∧
    (∀ e ∈ entries, sidecarB e = true →
      (mnameOf e = "" ∨ lastClaimant entries (keyOf e) ≠ some e) →
      e.path ∉ resultPaths (scan_directory root true true entries)) :=
  ⟨scan_resultPaths_nodup root entries hnd,
   fun e he hf hsk => scan_skip_recorded root entries e he hf hsk,
   fun e he hg hlast => scan_sidecar_fate root entries hnd e he hg hlast,
   fun e he hsc hdrop => scan_sidecar_dropped root entries hnd e he hsc hdrop⟩

/-- Counterexample for C2 as stated: the file `.su.json` is classified as a
sidecar, yet scanning a directory containing only it yields a result with
all five collections empty — the sidecar appears in no collection, not in
exactly one. -/
theorem C2_scan_partition_counterexample :
    is_metadata_json ".su.json" = true ∧
    scan_directory exRoot true true [⟨⟨"/t", ".su.json"⟩, true⟩] =
      { pairs := [], orphan_jsons := [], orphan_media := [],
        skipped_jsons := [], errors := [] } := by
  constructor <;> decide

/-- Witness for C2 (amended) on a directory holding `a.jpg` and
`a.jpg.su.json`: the result's paths are mutually exclusive and the sidecar
lands on the pair side. -/
theorem C2_scan_partition_witness :
    (resultPaths (scan_directory exRoot true true exEntries)).Nodup ∧
    (⟨exJson, true⟩ : Entry).path ∈
      (scan_directory exRoot true true exEntries).pairs.map
        MediaFilePair.json_path := by
  have h := C2_scan_partition exRoot exEntries (by decide)
  refine ⟨h.1, ?_⟩
  have h3 := h.2.2.1 ⟨exJson, true⟩ (by decide) (by decide) (by decide)
  rcases h3 with ⟨hin, -⟩ | ⟨hin, -⟩
  · exact hin
  · exact absurd hin (by decide)

end GPhotosMeta
